import Mathlib

/-!
Verification of the account-creation subsystem of the MarketPlace repository
(`apps/users/factories.py` together with the persistence model of
`apps/users/models.py`).

The Python code is shallowly embedded: the Profile Store (the relational
backend reached through the external ORM framework) is modelled as an explicit
`Store` value threaded through every operation, and each operation that can
raise a database or validation fault is modelled in `Except String`.  Django's
`@transaction.atomic` combined with the `try/except` blocks of the factories
means a database fault raised by any sub-step marks the transaction for
rollback, so a failing `create_account` call leaves the store unchanged and
returns the failure inside the result object; the embedding makes this
explicit by returning the original store on the error path.
-/

namespace MarketPlace

/-- A loosely-typed value of the Python field bag (`Dict[str, Any]`).
Only the value shapes the subsystem actually passes around are modelled:
absent (`None`), strings, booleans, and numbers (floats and ints embedded
as rationals). -/
inductive Value where
  | none
  | str (s : String)
  | bool (b : Bool)
  | num (q : ℚ)
deriving DecidableEq, Repr

/-- Python truthiness, as used by `if not all([username, email, password])`:
`None` is falsy, a string is falsy iff empty, `False` is falsy, `0` is falsy. -/
def Value.truthy : Value → Bool
  | .none => false
  | .str s => !s.isEmpty
  | .bool b => b
  | .num q => q != 0

/-- Coercion of a bag value into a string column (the bags used by the
subsystem always carry strings in string positions). -/
def Value.asStr : Value → String
  | .str s => s
  | _ => ""

/-- Coercion of a bag value into a boolean column (Python truthiness). -/
def Value.asBool (v : Value) : Bool := v.truthy

/-- Coercion of a bag value into a numeric column. -/
def Value.asNum : Value → ℚ
  | .num q => q
  | .bool b => if b then 1 else 0
  | _ => 0

/-- The `user_data` field bag: a string-keyed dictionary. -/
abbrev UserData := List (String × Value)

/-- `user_data.get(key, default)`: the value bound to `key`, or `default`. -/
def UserData.getd : UserData → String → Value → Value
  | [], _, d => d
  | (k', v) :: rest, k, d => if k' = k then v else UserData.getd rest k d

/-- `user_data.get(key)`: the value bound to `key`, or `None`. -/
def UserData.get (ud : UserData) (k : String) : Value :=
  ud.getd k Value.none

/-- Modelled from the spec: the account-kind enum `UserType` is imported by
`factories.py` from `.models` but its declaration is absent from the source
tree.  The spec (§3) defines AccountKind as the enumerated tag set
{BUYER, SELLER, ADMIN}, open for extension by registering new tags at
runtime; the `custom` constructor carries such runtime-registered tags. -/
inductive UserType where
  | buyer
  | seller
  | admin
  | custom (tag : String)
deriving DecidableEq, Repr

/-- The identity record (`User` of `models.py`, extending the framework's
user model): unique username and unique email, credential, kind tag,
staff/superuser flags.  Rows are keyed by a surrogate `id`; the automatic
timestamp columns are omitted from the embedding. -/
structure User where
  id : Nat
  username : String
  email : String
  password : String
  user_type : UserType
  first_name : String
  last_name : String
  is_staff : Bool
  is_superuser : Bool
  is_email_verified : Bool
deriving DecidableEq, Repr

/-- Companion contact/demographic profile (`UserProfile` of `models.py`);
nullable date/media columns and timestamps are omitted. -/
structure UserProfile where
  user : Nat
  first_name : String := ""
  last_name : String := ""
  bio : String := ""
  phone_number : String := ""
  address : String := ""
  city : String := ""
  country : String := ""
  postal_code : String := ""
deriving DecidableEq, Repr

/-- Companion settings record (`UserPreferences` of `models.py`) with the
column defaults of the source. -/
structure UserPreferences where
  user : Nat
  email_notifications : Bool := true
  sms_notifications : Bool := false
  marketing_emails : Bool := true
  newsletter_subscription : Bool := false
  push_notifications : Bool := true
  language : String := "en"
  timezone : String := "UTC"
  currency : String := "USD"
  date_format : String := "MM/DD/YYYY"
  theme : String := "light"
  items_per_page : Nat := 20
  profile_visibility : String := "public"
  show_online_status : Bool := true
deriving DecidableEq, Repr

/-- Companion analytics record (`UserAnalytics` of `models.py`); nullable
ip/duration/date columns and timestamps are omitted. -/
structure UserAnalytics where
  user : Nat
  login_count : Nat := 0
  last_user_agent : String := ""
  profile_views : Nat := 0
  profile_completion_score : ℚ := 0
  total_sessions : Nat := 0
  days_since_registration : Nat := 0
deriving DecidableEq, Repr

/-- Companion business/financial record (`UserBusinessInfo` of `models.py`)
with the column defaults of the source. -/
structure UserBusinessInfo where
  user : Nat
  is_premium : Bool := false
  premium_type : Option String := Option.none
  account_balance : ℚ := 0
  total_spent : ℚ := 0
  referral_code : String := ""
  referred_by : Option Nat := Option.none
  referral_earnings : ℚ := 0
  account_status : String := "active"
deriving DecidableEq, Repr

/-- Modelled from the spec: `BuyerProfile` is imported by `factories.py` from
`.models` but its declaration is absent from the source tree; its columns are
those the spec (§3) lists (shipping preference, notification toggles) and that
`BuyerAccountFactory._create_type_specific_profile` populates. -/
structure BuyerProfile where
  user : Nat
  preferred_shipping_method : String
  newsletter_subscription : Bool
  deal_notifications : Bool
  product_recommendations : Bool
deriving DecidableEq, Repr

/-- Modelled from the spec: `SellerProfile` is imported by `factories.py` from
`.models` but its declaration is absent from the source tree; its columns are
those the spec (§3) lists (business identity, store metadata, commission rate)
and that `SellerAccountFactory._create_type_specific_profile` populates. -/
structure SellerProfile where
  user : Nat
  business_name : String
  business_type : String
  tax_id : String
  business_address : String
  store_name : String
  store_description : String
  commission_rate : ℚ
deriving DecidableEq, Repr

/-- Modelled from the spec: `AdminProfile` is imported by `factories.py` from
`.models` but its declaration is absent from the source tree; its columns are
those the spec (§3) lists (admin level, permission flags, 2FA requirement,
session timeout) and that `AdminAccountFactory._create_type_specific_profile`
populates. -/
structure AdminProfile where
  user : Nat
  admin_level : String
  can_manage_users : Bool
  can_manage_products : Bool
  can_manage_orders : Bool
  can_manage_payments : Bool
  can_view_analytics : Bool
  can_manage_system : Bool
  department : String
  role_description : String
  require_2fa : Bool
  session_timeout_minutes : ℚ
deriving DecidableEq, Repr

/-- The Profile Store state: the persisted rows of each table, plus the next
surrogate id.  This is the external collaborator of spec §2/§6, modelled as
an explicit value. -/
structure Store where
  users : List User
  profiles : List UserProfile
  preferences : List UserPreferences
  analytics : List UserAnalytics
  business_infos : List UserBusinessInfo
  buyer_profiles : List BuyerProfile
  seller_profiles : List SellerProfile
  admin_profiles : List AdminProfile
  next_id : Nat
deriving DecidableEq, Repr

/-- The empty store. -/
def Store.empty : Store := ⟨[], [], [], [], [], [], [], [], 0⟩

/-- Well-formed store: every persisted user id is below the next surrogate id. -/
def Store.wf (s : Store) : Bool :=
  s.users.all (fun u => u.id < s.next_id)

/-- `user.profile` reverse one-to-one access: the contact profile row of a
user, if persisted. -/
def Store.find_profile (s : Store) (uid : Nat) : Option UserProfile :=
  s.profiles.find? (fun p => p.user == uid)

/-- `user.preferences` reverse one-to-one access. -/
def Store.find_preferences (s : Store) (uid : Nat) : Option UserPreferences :=
  s.preferences.find? (fun p => p.user == uid)

/-- `user.analytics` reverse one-to-one access. -/
def Store.find_analytics (s : Store) (uid : Nat) : Option UserAnalytics :=
  s.analytics.find? (fun p => p.user == uid)

/-- `user.business_info` reverse one-to-one access. -/
def Store.find_business_info (s : Store) (uid : Nat) : Option UserBusinessInfo :=
  s.business_infos.find? (fun p => p.user == uid)

/-- `preferences.save()`: write back a preferences row keyed by its user id. -/
def Store.save_preferences (s : Store) (p : UserPreferences) : Store :=
  { s with preferences := s.preferences.map (fun q => if q.user == p.user then p else q) }

/-- `business_info.save()`: write back a business-info row keyed by its user id. -/
def Store.save_business_info (s : Store) (b : UserBusinessInfo) : Store :=
  { s with business_infos := s.business_infos.map (fun q => if q.user == b.user then b else q) }

/-- `user.save()` on an already-persisted user: update the row in place
(the `post_save` signal with `created=False` re-saves the related rows,
which does not change the modelled state). -/
def Store.save_user (s : Store) (u : User) : Store :=
  { s with users := s.users.map (fun v => if v.id == u.id then u else v) }

/-- `UserProfile.objects.get_or_create(user=instance)` (models.py line 318). -/
def get_or_create_profile (s : Store) (uid : Nat) : Store :=
  if s.profiles.any (fun p => p.user == uid) then s
  else { s with profiles := s.profiles ++ [{ user := uid }] }

/-- `UserPreferences.objects.get_or_create(user=instance)` (models.py line 319). -/
def get_or_create_preferences (s : Store) (uid : Nat) : Store :=
  if s.preferences.any (fun p => p.user == uid) then s
  else { s with preferences := s.preferences ++ [{ user := uid }] }

/-- `UserAnalytics.objects.get_or_create(user=instance)` (models.py line 320). -/
def get_or_create_analytics (s : Store) (uid : Nat) : Store :=
  if s.analytics.any (fun p => p.user == uid) then s
  else { s with analytics := s.analytics ++ [{ user := uid }] }

/-- `UserBusinessInfo.objects.get_or_create(user=instance)` (models.py line 321). -/
def get_or_create_business_info (s : Store) (uid : Nat) : Store :=
  if s.business_infos.any (fun p => p.user == uid) then s
  else { s with business_infos := s.business_infos ++ [{ user := uid }] }

/-- The `post_save` receiver `create_user_related_models` of `models.py`
(run with `created=True`): get-or-create each of the four companion rows for
the given user.  This is the spec's Base Profile Bundler write path (§4.4). -/
def create_user_related_models (s : Store) (uid : Nat) : Store :=
  get_or_create_business_info
    (get_or_create_analytics
      (get_or_create_preferences
        (get_or_create_profile s uid) uid) uid) uid

/-- Modelled from the spec: `User.objects.create_user` is external framework
code (part of the Profile Store collaborator, §2/§6); it performs a
uniqueness-constrained insert (unique email per models.py line 16, unique
username per the framework's user model) and fires the `post_save` signal
whose receiver `create_user_related_models` is in the source.  A constraint
violation is a store-reported fault. -/
def create_user (s : Store) (username email password : String) (utype : UserType)
    (first_name last_name : String) : Except String (User × Store) :=
  if s.users.any (fun u => u.email == email) then
    Except.error "UNIQUE constraint failed: users_user.email"
  else if s.users.any (fun u => u.username == username) then
    Except.error "UNIQUE constraint failed: users_user.username"
  else
    let u : User :=
      { id := s.next_id, username := username, email := email, password := password,
        user_type := utype, first_name := first_name, last_name := last_name,
        is_staff := false, is_superuser := false, is_email_verified := false }
    let s1 : Store := { s with users := s.users ++ [u], next_id := s.next_id + 1 }
    Except.ok (u, create_user_related_models s1 u.id)

/-- `AccountFactoryAbstract._create_base_user`: extract the required fields,
raise `ValueError` (modelled as `Except.error`) when any of them is falsy,
otherwise create the user with this factory's kind tag. -/
def create_base_user (utype : UserType) (ud : UserData) (s : Store) :
    Except String (User × Store) :=
  let username := ud.get "username"
  let email := ud.get "email"
  let password := ud.get "password"
  if !(username.truthy && email.truthy && password.truthy) then
    Except.error "Username, email, and password are required"
  else
    create_user s username.asStr email.asStr password.asStr utype
      ((ud.getd "first_name" (Value.str ""))).asStr
      ((ud.getd "last_name" (Value.str ""))).asStr

/-- An entry of the `profile_data` mapping: the Python dict holds live
references to model objects (handles into the store, keyed by user id) and
booleans; dereferencing a handle at the end yields the current row. -/
inductive PValue where
  | user_profile_ref (uid : Nat)
  | preferences_ref (uid : Nat)
  | analytics_ref (uid : Nat)
  | business_info_ref (uid : Nat)
  | buyer_profile_ref (uid : Nat)
  | seller_profile_ref (uid : Nat)
  | admin_profile_ref (uid : Nat)
  | bool (b : Bool)
deriving DecidableEq, Repr

/-- The `profile_data` dictionary: insertion-ordered string-keyed mapping. -/
abbrev ProfileData := List (String × PValue)

/-- Python dict assignment `d[k] = v`: overwrite in place if the key exists
(dict keys are unique), otherwise append. -/
def ProfileData.insert : ProfileData → String → PValue → ProfileData
  | [], k, v => [(k, v)]
  | (k', v') :: rest, k, v =>
      if k' = k then (k, v) :: rest else (k', v') :: ProfileData.insert rest k v

/-- Python `d.update(other)`: assign every entry of `other` into `d` in order. -/
def ProfileData.updateWith (pd other : ProfileData) : ProfileData :=
  other.foldl (fun acc e => ProfileData.insert acc e.1 e.2) pd

/-- Lookup in a `profile_data` mapping. -/
def ProfileData.getv : ProfileData → String → Option PValue
  | [], _ => Option.none
  | (k', v) :: rest, k => if k' = k then some v else ProfileData.getv rest k

/-- `AccountFactoryAbstract._setup_base_profiles`: access the four companion
rows of the user (reverse one-to-one attribute access, faulting if a row is
absent) and return the mapping of handles under the fixed keys. -/
def setup_base_profiles (s : Store) (u : User) : Except String ProfileData :=
  match s.find_profile u.id, s.find_preferences u.id,
        s.find_analytics u.id, s.find_business_info u.id with
  | some _, some _, some _, some _ =>
      Except.ok [("user_profile", PValue.user_profile_ref u.id),
                 ("user_preferences", PValue.preferences_ref u.id),
                 ("user_analytics", PValue.analytics_ref u.id),
                 ("user_business_info", PValue.business_info_ref u.id)]
  | _, _, _, _ => Except.error "RelatedObjectDoesNotExist"

/-- `AccountCreationResult`: the created user (a handle, or none on failure),
the sub-object mapping, the internal success flag and the error list. -/
structure AccountCreationResult where
  user : Option Nat
  profile_data : ProfileData
  success : Bool
  errors : List String
deriving DecidableEq, Repr

/-- `AccountCreationResult.__init__`: success starts true, errors empty. -/
def AccountCreationResult.init (user : Option Nat) (profile_data : ProfileData) :
    AccountCreationResult :=
  { user := user, profile_data := profile_data, success := true, errors := [] }

/-- `AccountCreationResult.add_error`: append the error and clear the success
flag in the same step. -/
def AccountCreationResult.add_error (r : AccountCreationResult) (e : String) :
    AccountCreationResult :=
  { r with errors := r.errors ++ [e], success := false }

/-- `AccountCreationResult.is_successful`: `self.success and not self.errors`. -/
def AccountCreationResult.is_successful (r : AccountCreationResult) : Bool :=
  r.success && r.errors.isEmpty

/-- `BuyerAccountFactory._create_type_specific_profile`:
`BuyerProfile.objects.create(...)` with the per-field defaults of the source;
the one-to-one key makes a second profile for the same user a store fault. -/
def buyer_create_type_specific_profile (u : User) (ud : UserData) (s : Store) :
    Except String (BuyerProfile × Store) :=
  if s.buyer_profiles.any (fun p => p.user == u.id) then
    Except.error "UNIQUE constraint failed: buyer_profile.user"
  else
    let bp : BuyerProfile :=
      { user := u.id,
        preferred_shipping_method :=
          (ud.getd "preferred_shipping_method" (Value.str "standard")).asStr,
        newsletter_subscription :=
          (ud.getd "newsletter_subscription" (Value.bool true)).asBool,
        deal_notifications := (ud.getd "deal_notifications" (Value.bool true)).asBool,
        product_recommendations :=
          (ud.getd "product_recommendations" (Value.bool true)).asBool }
    Except.ok (bp, { s with buyer_profiles := s.buyer_profiles ++ [bp] })

/-- `BuyerAccountFactory._configure_type_specific_settings`: set the buyer
preference fields (caller-supplied values with defaults `True`), save, set
the business-info account status to `"active"`, save, and report the
configuration-completion markers. -/
def buyer_configure_type_specific_settings (u : User) (ud : UserData) (s : Store) :
    Except String (ProfileData × Store) :=
  match s.find_preferences u.id with
  | Option.none => Except.error "RelatedObjectDoesNotExist"
  | some p =>
    let p1 := { p with
      marketing_emails := (ud.getd "marketing_emails" (Value.bool true)).asBool,
      newsletter_subscription :=
        (ud.getd "newsletter_subscription" (Value.bool true)).asBool,
      push_notifications := (ud.getd "push_notifications" (Value.bool true)).asBool }
    let s1 := s.save_preferences p1
    match s1.find_business_info u.id with
    | Option.none => Except.error "RelatedObjectDoesNotExist"
    | some b =>
      let b1 := { b with account_status := "active" }
      let s2 := s1.save_business_info b1
      Except.ok ([("buyer_preferences_configured", PValue.bool true),
                  ("buyer_business_info_configured", PValue.bool true)], s2)

/-- The body of `BuyerAccountFactory.create_account` (the `try` block):
base user, base profiles, buyer profile, buyer settings, in order. -/
def buyer_create_account_body (ud : UserData) (s : Store) :
    Except String (AccountCreationResult × Store) :=
  match create_base_user UserType.buyer ud s with
  | Except.error e => Except.error e
  | Except.ok (u, s1) =>
    match setup_base_profiles s1 u with
    | Except.error e => Except.error e
    | Except.ok pd =>
      match buyer_create_type_specific_profile u ud s1 with
      | Except.error e => Except.error e
      | Except.ok (bp, s2) =>
        match buyer_configure_type_specific_settings u ud s2 with
        | Except.error e => Except.error e
        | Except.ok (settings, s3) =>
          Except.ok (AccountCreationResult.init (some u.id)
            ((pd.insert "buyer_profile" (PValue.buyer_profile_ref bp.user)).updateWith
              settings), s3)

/-- `BuyerAccountFactory.create_account`: the body runs under
`@transaction.atomic`; any fault is caught, the transaction is rolled back
(the original store is kept) and the fault is wrapped into a result error. -/
def buyer_create_account (ud : UserData) (s : Store) : AccountCreationResult × Store :=
  match buyer_create_account_body ud s with
  | Except.ok (r, s') => (r, s')
  | Except.error e =>
      ((AccountCreationResult.init Option.none []).add_error
        ("Failed to create buyer account: " ++ e), s)

/-- `SellerAccountFactory._create_type_specific_profile`:
`SellerProfile.objects.create(...)` with the per-field defaults of the source. -/
def seller_create_type_specific_profile (u : User) (ud : UserData) (s : Store) :
    Except String (SellerProfile × Store) :=
  if s.seller_profiles.any (fun p => p.user == u.id) then
    Except.error "UNIQUE constraint failed: seller_profile.user"
  else
    let sp : SellerProfile :=
      { user := u.id,
        business_name := (ud.getd "business_name" (Value.str "")).asStr,
        business_type := (ud.getd "business_type" (Value.str "individual")).asStr,
        tax_id := (ud.getd "tax_id" (Value.str "")).asStr,
        business_address := (ud.getd "business_address" (Value.str "")).asStr,
        store_name := (ud.getd "store_name" (Value.str "")).asStr,
        store_description := (ud.getd "store_description" (Value.str "")).asStr,
        commission_rate := (ud.getd "commission_rate" (Value.num 5)).asNum }
    Except.ok (sp, { s with seller_profiles := s.seller_profiles ++ [sp] })

/-- `SellerAccountFactory._configure_type_specific_settings`: sellers get
less marketing by default (`marketing_emails` and `newsletter_subscription`
default `False`), the business-info account status is set to `"pending"`
(sellers need verification), and `verification_required: True` is reported. -/
def seller_configure_type_specific_settings (u : User) (ud : UserData) (s : Store) :
    Except String (ProfileData × Store) :=
  match s.find_preferences u.id with
  | Option.none => Except.error "RelatedObjectDoesNotExist"
  | some p =>
    let p1 := { p with
      marketing_emails := (ud.getd "marketing_emails" (Value.bool false)).asBool,
      newsletter_subscription :=
        (ud.getd "newsletter_subscription" (Value.bool false)).asBool,
      push_notifications := (ud.getd "push_notifications" (Value.bool true)).asBool }
    let s1 := s.save_preferences p1
    match s1.find_business_info u.id with
    | Option.none => Except.error "RelatedObjectDoesNotExist"
    | some b =>
      let b1 := { b with account_status := "pending" }
      let s2 := s1.save_business_info b1
      Except.ok ([("seller_preferences_configured", PValue.bool true),
                  ("seller_business_info_configured", PValue.bool true),
                  ("verification_required", PValue.bool true)], s2)

/-- The body of `SellerAccountFactory.create_account` (the `try` block). -/
def seller_create_account_body (ud : UserData) (s : Store) :
    Except String (AccountCreationResult × Store) :=
  match create_base_user UserType.seller ud s with
  | Except.error e => Except.error e
  | Except.ok (u, s1) =>
    match setup_base_profiles s1 u with
    | Except.error e => Except.error e
    | Except.ok pd =>
      match seller_create_type_specific_profile u ud s1 with
      | Except.error e => Except.error e
      | Except.ok (sp, s2) =>
        match seller_configure_type_specific_settings u ud s2 with
        | Except.error e => Except.error e
        | Except.ok (settings, s3) =>
          Except.ok (AccountCreationResult.init (some u.id)
            ((pd.insert "seller_profile" (PValue.seller_profile_ref sp.user)).updateWith
              settings), s3)

/-- `SellerAccountFactory.create_account`: atomic body with caught faults. -/
def seller_create_account (ud : UserData) (s : Store) : AccountCreationResult × Store :=
  match seller_create_account_body ud s with
  | Except.ok (r, s') => (r, s')
  | Except.error e =>
      ((AccountCreationResult.init Option.none []).add_error
        ("Failed to create seller account: " ++ e), s)

/-- `AdminAccountFactory._create_type_specific_profile`:
`AdminProfile.objects.create(...)` with the per-field defaults of the source
(`require_2fa` defaults `True`, `session_timeout_minutes` defaults `30`). -/
def admin_create_type_specific_profile (u : User) (ud : UserData) (s : Store) :
    Except String (AdminProfile × Store) :=
  if s.admin_profiles.any (fun p => p.user == u.id) then
    Except.error "UNIQUE constraint failed: admin_profile.user"
  else
    let ap : AdminProfile :=
      { user := u.id,
        admin_level := (ud.getd "admin_level" (Value.str "junior")).asStr,
        can_manage_users := (ud.getd "can_manage_users" (Value.bool false)).asBool,
        can_manage_products := (ud.getd "can_manage_products" (Value.bool false)).asBool,
        can_manage_orders := (ud.getd "can_manage_orders" (Value.bool false)).asBool,
        can_manage_payments := (ud.getd "can_manage_payments" (Value.bool false)).asBool,
        can_view_analytics := (ud.getd "can_view_analytics" (Value.bool false)).asBool,
        can_manage_system := (ud.getd "can_manage_system" (Value.bool false)).asBool,
        department := (ud.getd "department" (Value.str "")).asStr,
        role_description := (ud.getd "role_description" (Value.str "")).asStr,
        require_2fa := (ud.getd "require_2fa" (Value.bool true)).asBool,
        session_timeout_minutes :=
          (ud.getd "session_timeout_minutes" (Value.num 30)).asNum }
    Except.ok (ap, { s with admin_profiles := s.admin_profiles ++ [ap] })

/-- `AdminAccountFactory._configure_type_specific_settings`: admins get no
marketing emails and no newsletter (the bag is not consulted for those keys),
a dark default theme, an `"active"` business status and a forced premium flag. -/
def admin_configure_type_specific_settings (u : User) (ud : UserData) (s : Store) :
    Except String (ProfileData × Store) :=
  match s.find_preferences u.id with
  | Option.none => Except.error "RelatedObjectDoesNotExist"
  | some p =>
    let p1 := { p with
      marketing_emails := false,
      newsletter_subscription := false,
      push_notifications := (ud.getd "push_notifications" (Value.bool true)).asBool,
      theme := (ud.getd "theme" (Value.str "dark")).asStr }
    let s1 := s.save_preferences p1
    match s1.find_business_info u.id with
    | Option.none => Except.error "RelatedObjectDoesNotExist"
    | some b =>
      let b1 := { b with account_status := "active", is_premium := true }
      let s2 := s1.save_business_info b1
      Except.ok ([("admin_preferences_configured", PValue.bool true),
                  ("admin_business_info_configured", PValue.bool true),
                  ("admin_permissions_set", PValue.bool true)], s2)

/-- The body of `AdminAccountFactory.create_account` (the `try` block): base
user, then the staff/superuser flags are set and the user re-saved, then base
profiles, admin profile and admin settings. -/
def admin_create_account_body (ud : UserData) (s : Store) :
    Except String (AccountCreationResult × Store) :=
  match create_base_user UserType.admin ud s with
  | Except.error e => Except.error e
  | Except.ok (u0, s1) =>
    let u := { u0 with is_staff := true,
                       is_superuser := (ud.getd "is_superuser" (Value.bool false)).asBool }
    let s2 := s1.save_user u
    match setup_base_profiles s2 u with
    | Except.error e => Except.error e
    | Except.ok pd =>
      match admin_create_type_specific_profile u ud s2 with
      | Except.error e => Except.error e
      | Except.ok (ap, s3) =>
        match admin_configure_type_specific_settings u ud s3 with
        | Except.error e => Except.error e
        | Except.ok (settings, s4) =>
          Except.ok (AccountCreationResult.init (some u.id)
            ((pd.insert "admin_profile" (PValue.admin_profile_ref ap.user)).updateWith
              settings), s4)

/-- `AdminAccountFactory.create_account`: atomic body with caught faults. -/
def admin_create_account (ud : UserData) (s : Store) : AccountCreationResult × Store :=
  match admin_create_account_body ud s with
  | Except.ok (r, s') => (r, s')
  | Except.error e =>
      ((AccountCreationResult.init Option.none []).add_error
        ("Failed to create admin account: " ++ e), s)

/-- A concrete account factory: the kind tag it creates together with its
`create_account` behaviour (factory classes are stateless, so a registered
class is embedded as this value). -/
structure Factory where
  get_user_type : UserType
  create_account : UserData → Store → AccountCreationResult × Store

/-- `BuyerAccountFactory` as a registry entry. -/
def BuyerAccountFactory : Factory := ⟨UserType.buyer, buyer_create_account⟩

/-- `SellerAccountFactory` as a registry entry. -/
def SellerAccountFactory : Factory := ⟨UserType.seller, seller_create_account⟩

/-- `AdminAccountFactory` as a registry entry. -/
def AdminAccountFactory : Factory := ⟨UserType.admin, admin_create_account⟩

/-- The registry's binding mapping `_factories` (an insertion-ordered dict
from kind tag to factory). -/
abbrev Registry := List (UserType × Factory)

/-- The initial `AccountFactoryRegistry._factories` bindings. -/
def default_factories : Registry :=
  [(UserType.buyer, BuyerAccountFactory),
   (UserType.seller, SellerAccountFactory),
   (UserType.admin, AdminAccountFactory)]

/-- Dictionary lookup over the registry: first binding whose key equals the
requested tag exactly. -/
def lookup_factory : Registry → UserType → Option Factory
  | [], _ => Option.none
  | (k, f) :: rest, t => if k = t then some f else lookup_factory rest t

/-- `AccountFactoryRegistry.get_factory`: raise `ValueError` (modelled as
`Except.error`) when the tag is not registered, otherwise instantiate the
registered factory. -/
def get_factory (reg : Registry) (t : UserType) : Except String Factory :=
  match lookup_factory reg t with
  | some f => Except.ok f
  | Option.none => Except.error "Unsupported user type"

/-- `AccountFactoryRegistry.register_factory`: dict assignment
`_factories[user_type] = factory_class` — overwrite the binding in place if
the key exists (dict keys are unique), otherwise append it. -/
def register_factory : Registry → UserType → Factory → Registry
  | [], t, f => [(t, f)]
  | (k, g) :: rest, t, f =>
      if k = t then (t, f) :: rest else (k, g) :: register_factory rest t f

/-- The module-level convenience function `create_account`: resolve the
factory (propagating `get_factory`'s hard fault) and run it. -/
def create_account (reg : Registry) (t : UserType) (ud : UserData) (s : Store) :
    Except String (AccountCreationResult × Store) := do
  let f ← get_factory reg t
  Except.ok (f.create_account ud s)

/-! ### Generic helper lemmas -/

theorem any_iff_find?_isSome {α : Type} (l : List α) (p : α → Bool) :
    l.any p = true ↔ (l.find? p).isSome = true := by
  simp [List.any_eq_true, List.find?_isSome]

/-! ### Lemmas about the Base Profile Bundler (`create_user_related_models`) -/

theorem get_or_create_profile_fields (s : Store) (uid : Nat) :
    (get_or_create_profile s uid).users = s.users ∧
    (get_or_create_profile s uid).preferences = s.preferences ∧
    (get_or_create_profile s uid).analytics = s.analytics ∧
    (get_or_create_profile s uid).business_infos = s.business_infos ∧
    (get_or_create_profile s uid).buyer_profiles = s.buyer_profiles ∧
    (get_or_create_profile s uid).seller_profiles = s.seller_profiles ∧
    (get_or_create_profile s uid).admin_profiles = s.admin_profiles ∧
    (get_or_create_profile s uid).next_id = s.next_id ∧
    (get_or_create_profile s uid).profiles.any (fun p => p.user == uid) = true := by
  unfold get_or_create_profile
  split
  · exact ⟨rfl, rfl, rfl, rfl, rfl, rfl, rfl, rfl, by assumption⟩
  · exact ⟨rfl, rfl, rfl, rfl, rfl, rfl, rfl, rfl, by simp⟩

theorem get_or_create_preferences_fields (s : Store) (uid : Nat) :
    (get_or_create_preferences s uid).users = s.users ∧
    (get_or_create_preferences s uid).profiles = s.profiles ∧
    (get_or_create_preferences s uid).analytics = s.analytics ∧
    (get_or_create_preferences s uid).business_infos = s.business_infos ∧
    (get_or_create_preferences s uid).buyer_profiles = s.buyer_profiles ∧
    (get_or_create_preferences s uid).seller_profiles = s.seller_profiles ∧
    (get_or_create_preferences s uid).admin_profiles = s.admin_profiles ∧
    (get_or_create_preferences s uid).next_id = s.next_id ∧
    (get_or_create_preferences s uid).preferences.any (fun p => p.user == uid) = true := by
  unfold get_or_create_preferences
  split
  · exact ⟨rfl, rfl, rfl, rfl, rfl, rfl, rfl, rfl, by assumption⟩
  · exact ⟨rfl, rfl, rfl, rfl, rfl, rfl, rfl, rfl, by simp⟩

theorem get_or_create_analytics_fields (s : Store) (uid : Nat) :
    (get_or_create_analytics s uid).users = s.users ∧
    (get_or_create_analytics s uid).profiles = s.profiles ∧
    (get_or_create_analytics s uid).preferences = s.preferences ∧
    (get_or_create_analytics s uid).business_infos = s.business_infos ∧
    (get_or_create_analytics s uid).buyer_profiles = s.buyer_profiles ∧
    (get_or_create_analytics s uid).seller_profiles = s.seller_profiles ∧
    (get_or_create_analytics s uid).admin_profiles = s.admin_profiles ∧
    (get_or_create_analytics s uid).next_id = s.next_id ∧
    (get_or_create_analytics s uid).analytics.any (fun p => p.user == uid) = true := by
  unfold get_or_create_analytics
  split
  · exact ⟨rfl, rfl, rfl, rfl, rfl, rfl, rfl, rfl, by assumption⟩
  · exact ⟨rfl, rfl, rfl, rfl, rfl, rfl, rfl, rfl, by simp⟩

theorem get_or_create_business_info_fields (s : Store) (uid : Nat) :
    (get_or_create_business_info s uid).users = s.users ∧
    (get_or_create_business_info s uid).profiles = s.profiles ∧
    (get_or_create_business_info s uid).preferences = s.preferences ∧
    (get_or_create_business_info s uid).analytics = s.analytics ∧
    (get_or_create_business_info s uid).buyer_profiles = s.buyer_profiles ∧
    (get_or_create_business_info s uid).seller_profiles = s.seller_profiles ∧
    (get_or_create_business_info s uid).admin_profiles = s.admin_profiles ∧
    (get_or_create_business_info s uid).next_id = s.next_id ∧
    (get_or_create_business_info s uid).business_infos.any (fun p => p.user == uid) = true := by
  unfold get_or_create_business_info
  split
  · exact ⟨rfl, rfl, rfl, rfl, rfl, rfl, rfl, rfl, by assumption⟩
  · exact ⟨rfl, rfl, rfl, rfl, rfl, rfl, rfl, rfl, by simp⟩

theorem get_or_create_profile_of_any (s : Store) (uid : Nat)
    (h : s.profiles.any (fun p => p.user == uid) = true) :
    get_or_create_profile s uid = s := by
  unfold get_or_create_profile; simp [h]

theorem get_or_create_preferences_of_any (s : Store) (uid : Nat)
    (h : s.preferences.any (fun p => p.user == uid) = true) :
    get_or_create_preferences s uid = s := by
  unfold get_or_create_preferences; simp [h]

theorem get_or_create_analytics_of_any (s : Store) (uid : Nat)
    (h : s.analytics.any (fun p => p.user == uid) = true) :
    get_or_create_analytics s uid = s := by
  unfold get_or_create_analytics; simp [h]

theorem get_or_create_business_info_of_any (s : Store) (uid : Nat)
    (h : s.business_infos.any (fun p => p.user == uid) = true) :
    get_or_create_business_info s uid = s := by
  unfold get_or_create_business_info; simp [h]

/-- After the bundler has run for `uid`, the bundler-untouched tables are
unchanged and each of the four companion tables has a row for `uid`. -/
theorem create_user_related_models_fields (s : Store) (uid : Nat) :
    (create_user_related_models s uid).users = s.users ∧
    (create_user_related_models s uid).buyer_profiles = s.buyer_profiles ∧
    (create_user_related_models s uid).seller_profiles = s.seller_profiles ∧
    (create_user_related_models s uid).admin_profiles = s.admin_profiles ∧
    (create_user_related_models s uid).next_id = s.next_id ∧
    (create_user_related_models s uid).profiles.any (fun p => p.user == uid) = true ∧
    (create_user_related_models s uid).preferences.any (fun p => p.user == uid) = true ∧
    (create_user_related_models s uid).analytics.any (fun p => p.user == uid) = true ∧
    (create_user_related_models s uid).business_infos.any (fun p => p.user == uid) = true := by
  unfold create_user_related_models
  obtain ⟨p1, p2, p3, p4, p5, p6, p7, p8, p9⟩ := get_or_create_profile_fields s uid
  obtain ⟨q1, q2, q3, q4, q5, q6, q7, q8, q9⟩ :=
    get_or_create_preferences_fields (get_or_create_profile s uid) uid
  obtain ⟨a1, a2, a3, a4, a5, a6, a7, a8, a9⟩ :=
    get_or_create_analytics_fields
      (get_or_create_preferences (get_or_create_profile s uid) uid) uid
  obtain ⟨b1, b2, b3, b4, b5, b6, b7, b8, b9⟩ :=
    get_or_create_business_info_fields
      (get_or_create_analytics
        (get_or_create_preferences (get_or_create_profile s uid) uid) uid) uid
  refine ⟨?_, ?_, ?_, ?_, ?_, ?_, ?_, ?_, ?_⟩
  · rw [b1, a1, q1, p1]
  · rw [b5, a5, q5, p5]
  · rw [b6, a6, q6, p6]
  · rw [b7, a7, q7, p7]
  · rw [b8, a8, q8, p8]
  · rw [b2, a2, q2, p9]
  · rw [b3, a3, q9]
  · rw [b4, a9]
  · exact b9

/-! ### Lemmas about the Factory Registry -/

theorem lookup_factory_mem (reg : Registry) (t : UserType) (f : Factory)
    (h : lookup_factory reg t = some f) : (t, f) ∈ reg := by
  induction reg with
  | nil => simp [lookup_factory] at h
  | cons e rest ih =>
    obtain ⟨k, g⟩ := e
    unfold lookup_factory at h
    by_cases hk : k = t
    · subst hk
      simp at h
      subst h
      exact List.mem_cons_self _ _
    · simp [hk] at h
      exact List.mem_cons_of_mem _ (ih h)

theorem lookup_register_self (reg : Registry) (t : UserType) (f : Factory) :
    lookup_factory (register_factory reg t f) t = some f := by
  induction reg with
  | nil => simp [register_factory, lookup_factory]
  | cons e rest ih =>
    obtain ⟨k, g⟩ := e
    unfold register_factory
    by_cases hk : k = t
    · simp [hk, lookup_factory]
    · simp only [if_neg hk]
      unfold lookup_factory
      rw [if_neg hk]
      exact ih

theorem lookup_register_other (reg : Registry) (t t' : UserType) (f : Factory)
    (h : t' ≠ t) :
    lookup_factory (register_factory reg t f) t' = lookup_factory reg t' := by
  induction reg with
  | nil =>
    have h1 : ¬t = t' := fun hc => h hc.symm
    simp [register_factory, lookup_factory, h1]
  | cons e rest ih =>
    obtain ⟨k, g⟩ := e
    unfold register_factory
    by_cases hk : k = t
    · subst hk
      have h1 : ¬k = t' := fun hc => h hc.symm
      rw [if_pos rfl]
      unfold lookup_factory
      rw [if_neg h1, if_neg h1]
    · simp only [if_neg hk]
      unfold lookup_factory
      by_cases hk' : k = t'
      · simp [hk']
      · rw [if_neg hk', if_neg hk']
        exact ih

/-! ### Shape of a factory body's successful result -/

theorem buyer_body_ok_user (ud : UserData) (s : Store) (r : AccountCreationResult)
    (s' : Store) (h : buyer_create_account_body ud s = Except.ok (r, s')) :
    ∃ uid pd, r = AccountCreationResult.init (some uid) pd := by
  unfold buyer_create_account_body at h
  cases h1 : create_base_user UserType.buyer ud s with
  | error e => simp only [h1] at h; exact Except.noConfusion h
  | ok us =>
    obtain ⟨u, s1⟩ := us
    simp only [h1] at h
    cases h2 : setup_base_profiles s1 u with
    | error e => simp only [h2] at h; exact Except.noConfusion h
    | ok pd =>
      simp only [h2] at h
      cases h3 : buyer_create_type_specific_profile u ud s1 with
      | error e => simp only [h3] at h; exact Except.noConfusion h
      | ok bs =>
        obtain ⟨bp, s2⟩ := bs
        simp only [h3] at h
        cases h4 : buyer_configure_type_specific_settings u ud s2 with
        | error e => simp only [h4] at h; exact Except.noConfusion h
        | ok ss =>
          obtain ⟨settings, s3⟩ := ss
          simp only [h4, Except.ok.injEq, Prod.mk.injEq] at h
          exact ⟨u.id, _, h.1.symm⟩

theorem seller_body_ok_user (ud : UserData) (s : Store) (r : AccountCreationResult)
    (s' : Store) (h : seller_create_account_body ud s = Except.ok (r, s')) :
    ∃ uid pd, r = AccountCreationResult.init (some uid) pd := by
  unfold seller_create_account_body at h
  cases h1 : create_base_user UserType.seller ud s with
  | error e => simp only [h1] at h; exact Except.noConfusion h
  | ok us =>
    obtain ⟨u, s1⟩ := us
    simp only [h1] at h
    cases h2 : setup_base_profiles s1 u with
    | error e => simp only [h2] at h; exact Except.noConfusion h
    | ok pd =>
      simp only [h2] at h
      cases h3 : seller_create_type_specific_profile u ud s1 with
      | error e => simp only [h3] at h; exact Except.noConfusion h
      | ok bs =>
        obtain ⟨sp, s2⟩ := bs
        simp only [h3] at h
        cases h4 : seller_configure_type_specific_settings u ud s2 with
        | error e => simp only [h4] at h; exact Except.noConfusion h
        | ok ss =>
          obtain ⟨settings, s3⟩ := ss
          simp only [h4, Except.ok.injEq, Prod.mk.injEq] at h
          exact ⟨u.id, _, h.1.symm⟩

theorem admin_body_ok_user (ud : UserData) (s : Store) (r : AccountCreationResult)
    (s' : Store) (h : admin_create_account_body ud s = Except.ok (r, s')) :
    ∃ uid pd, r = AccountCreationResult.init (some uid) pd := by
  unfold admin_create_account_body at h
  cases h1 : create_base_user UserType.admin ud s with
  | error e => simp only [h1] at h; exact Except.noConfusion h
  | ok us =>
    obtain ⟨u0, s1⟩ := us
    simp only [h1] at h
    cases h2 : setup_base_profiles (s1.save_user
        { u0 with is_staff := true,
                  is_superuser := (ud.getd "is_superuser" (Value.bool false)).asBool })
        { u0 with is_staff := true,
                  is_superuser := (ud.getd "is_superuser" (Value.bool false)).asBool } with
    | error e => simp only [h2] at h; exact Except.noConfusion h
    | ok pd =>
      simp only [h2] at h
      cases h3 : admin_create_type_specific_profile
          { u0 with is_staff := true,
                    is_superuser := (ud.getd "is_superuser" (Value.bool false)).asBool }
          ud
          (s1.save_user
            { u0 with is_staff := true,
                      is_superuser := (ud.getd "is_superuser" (Value.bool false)).asBool }) with
      | error e => simp only [h3] at h; exact Except.noConfusion h
      | ok bs =>
        obtain ⟨ap, s3⟩ := bs
        simp only [h3] at h
        cases h4 : admin_configure_type_specific_settings
            { u0 with is_staff := true,
                      is_superuser := (ud.getd "is_superuser" (Value.bool false)).asBool }
            ud s3 with
        | error e => simp only [h4] at h; exact Except.noConfusion h
        | ok ss =>
          obtain ⟨settings, s4⟩ := ss
          simp only [h4, Except.ok.injEq, Prod.mk.injEq] at h
          exact ⟨_, _, h.1.symm⟩

/-- If all four companion rows exist for `uid`, the bundler is the identity. -/
theorem create_user_related_models_of_any (s : Store) (uid : Nat)
    (h1 : s.profiles.any (fun p => p.user == uid) = true)
    (h2 : s.preferences.any (fun p => p.user == uid) = true)
    (h3 : s.analytics.any (fun p => p.user == uid) = true)
    (h4 : s.business_infos.any (fun p => p.user == uid) = true) :
    create_user_related_models s uid = s := by
  unfold create_user_related_models
  rw [get_or_create_profile_of_any s uid h1,
      get_or_create_preferences_of_any s uid h2,
      get_or_create_analytics_of_any s uid h3,
      get_or_create_business_info_of_any s uid h4]

/-! ### Step lemmas for the factory pipelines -/

theorem create_base_user_ok (t : UserType) (ud : UserData) (s : Store) (u : User)
    (s' : Store) (h : create_base_user t ud s = Except.ok (u, s')) :
    u.id = s.next_id ∧ u.user_type = t ∧
    s'.users = s.users ++ [u] ∧ s'.next_id = s.next_id + 1 ∧
    s'.buyer_profiles = s.buyer_profiles ∧
    s'.seller_profiles = s.seller_profiles ∧
    s'.admin_profiles = s.admin_profiles ∧
    s'.profiles.any (fun q => q.user == u.id) = true ∧
    s'.preferences.any (fun q => q.user == u.id) = true ∧
    s'.analytics.any (fun q => q.user == u.id) = true ∧
    s'.business_infos.any (fun q => q.user == u.id) = true := by
  unfold create_base_user at h
  dsimp only at h
  split at h
  · exact Except.noConfusion h
  · unfold create_user at h
    dsimp only at h
    split at h
    · exact Except.noConfusion h
    · split at h
      · exact Except.noConfusion h
      · simp only [Except.ok.injEq, Prod.mk.injEq] at h
        obtain ⟨hu, hs⟩ := h
        subst hu
        rw [← hs]
        exact ⟨rfl, rfl,
          (create_user_related_models_fields _ _).1,
          (create_user_related_models_fields _ _).2.2.2.2.1,
          (create_user_related_models_fields _ _).2.1,
          (create_user_related_models_fields _ _).2.2.1,
          (create_user_related_models_fields _ _).2.2.2.1,
          (create_user_related_models_fields _ _).2.2.2.2.2.1,
          (create_user_related_models_fields _ _).2.2.2.2.2.2.1,
          (create_user_related_models_fields _ _).2.2.2.2.2.2.2.1,
          (create_user_related_models_fields _ _).2.2.2.2.2.2.2.2⟩

theorem buyer_profile_create_fields (u : User) (ud : UserData) (s : Store)
    (bp : BuyerProfile) (s2 : Store)
    (h : buyer_create_type_specific_profile u ud s = Except.ok (bp, s2)) :
    bp.user = u.id ∧ s2.users = s.users ∧ s2.profiles = s.profiles ∧
    s2.preferences = s.preferences ∧ s2.analytics = s.analytics ∧
    s2.business_infos = s.business_infos ∧ s2.seller_profiles = s.seller_profiles ∧
    s2.admin_profiles = s.admin_profiles ∧ s2.next_id = s.next_id ∧
    s2.buyer_profiles.any (fun q => q.user == u.id) = true := by
  unfold buyer_create_type_specific_profile at h
  split at h
  · exact Except.noConfusion h
  · simp only [Except.ok.injEq, Prod.mk.injEq] at h
    obtain ⟨hbp, hs⟩ := h
    subst hbp
    subst hs
    refine ⟨rfl, rfl, rfl, rfl, rfl, rfl, rfl, rfl, rfl, ?_⟩
    simp

theorem seller_profile_create_fields (u : User) (ud : UserData) (s : Store)
    (sp : SellerProfile) (s2 : Store)
    (h : seller_create_type_specific_profile u ud s = Except.ok (sp, s2)) :
    sp.user = u.id ∧ s2.users = s.users ∧ s2.profiles = s.profiles ∧
    s2.preferences = s.preferences ∧ s2.analytics = s.analytics ∧
    s2.business_infos = s.business_infos ∧ s2.buyer_profiles = s.buyer_profiles ∧
    s2.admin_profiles = s.admin_profiles ∧ s2.next_id = s.next_id ∧
    s2.seller_profiles.any (fun q => q.user == u.id) = true := by
  unfold seller_create_type_specific_profile at h
  split at h
  · exact Except.noConfusion h
  · simp only [Except.ok.injEq, Prod.mk.injEq] at h
    obtain ⟨hsp, hs⟩ := h
    subst hsp
    subst hs
    refine ⟨rfl, rfl, rfl, rfl, rfl, rfl, rfl, rfl, rfl, ?_⟩
    simp

theorem admin_profile_create_fields (u : User) (ud : UserData) (s : Store)
    (ap : AdminProfile) (s2 : Store)
    (h : admin_create_type_specific_profile u ud s = Except.ok (ap, s2)) :
    ap.user = u.id ∧ s2.users = s.users ∧ s2.profiles = s.profiles ∧
    s2.preferences = s.preferences ∧ s2.analytics = s.analytics ∧
    s2.business_infos = s.business_infos ∧ s2.buyer_profiles = s.buyer_profiles ∧
    s2.seller_profiles = s.seller_profiles ∧ s2.next_id = s.next_id ∧
    s2.admin_profiles.any (fun q => q.user == u.id) = true := by
  unfold admin_create_type_specific_profile at h
  split at h
  · exact Except.noConfusion h
  · simp only [Except.ok.injEq, Prod.mk.injEq] at h
    obtain ⟨hap, hs⟩ := h
    subst hap
    subst hs
    refine ⟨rfl, rfl, rfl, rfl, rfl, rfl, rfl, rfl, rfl, ?_⟩
    simp

/-- Writing back a row keyed by its user id: the written row is what a
subsequent lookup for that key finds, provided a row for the key existed. -/
theorem find?_save_list {α : Type} (key : α → Nat) (p1 : α) :
    ∀ l : List α, ((l.find? (fun q => key q == key p1)).isSome = true) →
    (l.map (fun q => if key q == key p1 then p1 else q)).find?
      (fun q => key q == key p1) = some p1 := by
  intro l
  induction l with
  | nil => intro h; simp at h
  | cons a rest ih =>
    intro h
    simp only [List.map_cons]
    by_cases ha : key a = key p1
    · have hb : (key a == key p1) = true := by simpa using ha
      rw [if_pos hb]
      exact List.find?_cons_of_pos _ (by simp)
    · have hb : ¬((key a == key p1) = true) := by simpa using ha
      rw [if_neg hb]
      rw [List.find?_cons_of_neg (p := fun q => key q == key p1) _ hb]
      rw [List.find?_cons_of_neg (p := fun q => key q == key p1) _ hb] at h
      exact ih h

theorem find_preferences_save_self (s : Store) (p1 : UserPreferences) (uid : Nat)
    (hu : p1.user = uid) (h : (s.find_preferences uid).isSome = true) :
    (s.save_preferences p1).find_preferences uid = some p1 := by
  subst hu
  unfold Store.find_preferences at h
  unfold Store.find_preferences Store.save_preferences
  exact find?_save_list UserPreferences.user p1 s.preferences h

theorem find_business_info_save_self (s : Store) (b1 : UserBusinessInfo) (uid : Nat)
    (hu : b1.user = uid) (h : (s.find_business_info uid).isSome = true) :
    (s.save_business_info b1).find_business_info uid = some b1 := by
  subst hu
  unfold Store.find_business_info at h
  unfold Store.find_business_info Store.save_business_info
  exact find?_save_list UserBusinessInfo.user b1 s.business_infos h

theorem buyer_settings_fields (u : User) (ud : UserData) (s : Store)
    (st : ProfileData) (s3 : Store)
    (h : buyer_configure_type_specific_settings u ud s = Except.ok (st, s3)) :
    s3.users = s.users ∧ s3.profiles = s.profiles ∧ s3.analytics = s.analytics ∧
    s3.buyer_profiles = s.buyer_profiles ∧ s3.seller_profiles = s.seller_profiles ∧
    s3.admin_profiles = s.admin_profiles ∧ s3.next_id = s.next_id ∧
    (∃ p : UserPreferences, s3.find_preferences u.id = some p ∧
      p.marketing_emails = (ud.getd "marketing_emails" (Value.bool true)).asBool ∧
      p.newsletter_subscription =
        (ud.getd "newsletter_subscription" (Value.bool true)).asBool) ∧
    (∃ b : UserBusinessInfo, s3.find_business_info u.id = some b ∧
      b.account_status = "active") := by
  unfold buyer_configure_type_specific_settings at h
  split at h
  · exact Except.noConfusion h
  · rename_i p hp
    dsimp only at h
    split at h
    · exact Except.noConfusion h
    · rename_i b hb
      simp only [Except.ok.injEq, Prod.mk.injEq] at h
      obtain ⟨hst, hs3⟩ := h
      rw [← hs3]
      have hpu : p.user = u.id := by simpa using List.find?_some hp
      have hbu : b.user = u.id := by simpa using List.find?_some hb
      refine ⟨rfl, rfl, rfl, rfl, rfl, rfl, rfl, ?_, ?_⟩
      · exact ⟨_, find_preferences_save_self _ _ u.id hpu (by rw [hp]; rfl), rfl, rfl⟩
      · exact ⟨_, find_business_info_save_self _ _ u.id hbu (by rw [hb]; rfl), rfl⟩

theorem seller_settings_fields (u : User) (ud : UserData) (s : Store)
    (st : ProfileData) (s3 : Store)
    (h : seller_configure_type_specific_settings u ud s = Except.ok (st, s3)) :
    s3.users = s.users ∧ s3.profiles = s.profiles ∧ s3.analytics = s.analytics ∧
    s3.buyer_profiles = s.buyer_profiles ∧ s3.seller_profiles = s.seller_profiles ∧
    s3.admin_profiles = s.admin_profiles ∧ s3.next_id = s.next_id ∧
    (∃ p : UserPreferences, s3.find_preferences u.id = some p ∧
      p.marketing_emails = (ud.getd "marketing_emails" (Value.bool false)).asBool ∧
      p.newsletter_subscription =
        (ud.getd "newsletter_subscription" (Value.bool false)).asBool) ∧
    (∃ b : UserBusinessInfo, s3.find_business_info u.id = some b ∧
      b.account_status = "pending") := by
  unfold seller_configure_type_specific_settings at h
  split at h
  · exact Except.noConfusion h
  · rename_i p hp
    dsimp only at h
    split at h
    · exact Except.noConfusion h
    · rename_i b hb
      simp only [Except.ok.injEq, Prod.mk.injEq] at h
      obtain ⟨hst, hs3⟩ := h
      rw [← hs3]
      have hpu : p.user = u.id := by simpa using List.find?_some hp
      have hbu : b.user = u.id := by simpa using List.find?_some hb
      refine ⟨rfl, rfl, rfl, rfl, rfl, rfl, rfl, ?_, ?_⟩
      · exact ⟨_, find_preferences_save_self _ _ u.id hpu (by rw [hp]; rfl), rfl, rfl⟩
      · exact ⟨_, find_business_info_save_self _ _ u.id hbu (by rw [hb]; rfl), rfl⟩

theorem admin_settings_fields (u : User) (ud : UserData) (s : Store)
    (st : ProfileData) (s3 : Store)
    (h : admin_configure_type_specific_settings u ud s = Except.ok (st, s3)) :
    s3.users = s.users ∧ s3.profiles = s.profiles ∧ s3.analytics = s.analytics ∧
    s3.buyer_profiles = s.buyer_profiles ∧ s3.seller_profiles = s.seller_profiles ∧
    s3.admin_profiles = s.admin_profiles ∧ s3.next_id = s.next_id ∧
    (∃ p : UserPreferences, s3.find_preferences u.id = some p ∧
      p.marketing_emails = false ∧ p.newsletter_subscription = false) ∧
    (∃ b : UserBusinessInfo, s3.find_business_info u.id = some b ∧
      b.account_status = "active" ∧ b.is_premium = true) := by
  unfold admin_configure_type_specific_settings at h
  split at h
  · exact Except.noConfusion h
  · rename_i p hp
    dsimp only at h
    split at h
    · exact Except.noConfusion h
    · rename_i b hb
      simp only [Except.ok.injEq, Prod.mk.injEq] at h
      obtain ⟨hst, hs3⟩ := h
      rw [← hs3]
      have hpu : p.user = u.id := by simpa using List.find?_some hp
      have hbu : b.user = u.id := by simpa using List.find?_some hb
      refine ⟨rfl, rfl, rfl, rfl, rfl, rfl, rfl, ?_, ?_⟩
      · exact ⟨_, find_preferences_save_self _ _ u.id hpu (by rw [hp]; rfl), rfl, rfl⟩
      · exact ⟨_, find_business_info_save_self _ _ u.id hbu (by rw [hb]; rfl), rfl, rfl⟩

/-- Saving an updated user row that was just appended leaves the earlier rows
unchanged when none of them carries the updated row's id. -/
theorem save_users_append (l : List User) (u0 u : User) (h0 : u0.id = u.id)
    (h : ∀ v ∈ l, v.id ≠ u.id) :
    (l ++ [u0]).map (fun v => if v.id == u.id then u else v) = l ++ [u] := by
  rw [List.map_append]
  have h1 : ∀ l' : List User, (∀ v ∈ l', v.id ≠ u.id) →
      l'.map (fun v => if v.id == u.id then u else v) = l' := by
    intro l'
    induction l' with
    | nil => intro _; rfl
    | cons a rest ih =>
      intro hl
      have ha : ¬((a.id == u.id) = true) := by
        simpa using hl a (List.mem_cons_self a rest)
      simp only [List.map_cons, if_neg ha]
      rw [ih (fun v hv => hl v (List.mem_cons_of_mem a hv))]
  rw [h1 l h]
  simp [h0]

/-- A key present in the bag with a non-`None` value is returned regardless of
the supplied default. -/
theorem getd_of_get (ud : UserData) (k : String) (v d : Value)
    (hv : ud.get k = v) (hne : v ≠ Value.none) : ud.getd k d = v := by
  induction ud with
  | nil => exact absurd hv.symm hne
  | cons e rest ih =>
    obtain ⟨k', w⟩ := e
    unfold UserData.get at hv
    unfold UserData.getd at hv ⊢
    by_cases hk : k' = k
    · rw [if_pos hk] at hv ⊢
      exact hv
    · rw [if_neg hk] at hv ⊢
      exact ih hv

/-- Missing or falsy required fields make `_create_base_user` raise. -/
theorem create_base_user_missing (t : UserType) (ud : UserData) (s : Store)
    (h : ((ud.get "username").truthy && (ud.get "email").truthy &&
      (ud.get "password").truthy) = false) :
    create_base_user t ud s =
      Except.error "Username, email, and password are required" := by
  unfold create_base_user
  dsimp only
  rw [if_pos (by rw [h]; rfl)]

/-- An email already present in the store makes the uniqueness-constrained
insert fail. -/
theorem create_base_user_dup_email (t : UserType) (ud : UserData) (s : Store)
    (e : String) (hemail : ud.get "email" = Value.str e)
    (htr : ((ud.get "username").truthy && (ud.get "email").truthy &&
      (ud.get "password").truthy) = true)
    (hdup : s.users.any (fun v => v.email == e) = true) :
    create_base_user t ud s =
      Except.error "UNIQUE constraint failed: users_user.email" := by
  unfold create_base_user
  dsimp only
  rw [if_neg (by simp [htr])]
  unfold create_user
  rw [if_pos (by rw [hemail]; exact hdup)]

theorem buyer_create_account_of_body_error (ud : UserData) (s : Store) (e : String)
    (h : buyer_create_account_body ud s = Except.error e) :
    buyer_create_account ud s =
      ((AccountCreationResult.init Option.none []).add_error
        ("Failed to create buyer account: " ++ e), s) := by
  unfold buyer_create_account
  rw [h]

theorem seller_create_account_of_body_error (ud : UserData) (s : Store) (e : String)
    (h : seller_create_account_body ud s = Except.error e) :
    seller_create_account ud s =
      ((AccountCreationResult.init Option.none []).add_error
        ("Failed to create seller account: " ++ e), s) := by
  unfold seller_create_account
  rw [h]

theorem admin_create_account_of_body_error (ud : UserData) (s : Store) (e : String)
    (h : admin_create_account_body ud s = Except.error e) :
    admin_create_account ud s =
      ((AccountCreationResult.init Option.none []).add_error
        ("Failed to create admin account: " ++ e), s) := by
  unfold admin_create_account
  rw [h]

theorem buyer_body_error_of_base (ud : UserData) (s : Store) (e : String)
    (h : create_base_user UserType.buyer ud s = Except.error e) :
    buyer_create_account_body ud s = Except.error e := by
  unfold buyer_create_account_body
  rw [h]

theorem seller_body_error_of_base (ud : UserData) (s : Store) (e : String)
    (h : create_base_user UserType.seller ud s = Except.error e) :
    seller_create_account_body ud s = Except.error e := by
  unfold seller_create_account_body
  rw [h]

theorem admin_body_error_of_base (ud : UserData) (s : Store) (e : String)
    (h : create_base_user UserType.admin ud s = Except.error e) :
    admin_create_account_body ud s = Except.error e := by
  unfold admin_create_account_body
  rw [h]

/-- Everything a successful buyer body run guarantees: the result wraps the
new user, exactly one identity row is appended, all companion rows and the
buyer profile exist, and the final preferences row holds the configured
values. -/
theorem buyer_body_ok_spec (ud : UserData) (s : Store) (r : AccountCreationResult)
    (s' : Store) (h : buyer_create_account_body ud s = Except.ok (r, s')) :
    ∃ (u : User) (p : UserPreferences),
      r.user = some u.id ∧ r.success = true ∧ r.errors = [] ∧
      u.id = s.next_id ∧ u.user_type = UserType.buyer ∧
      s'.users = s.users ++ [u] ∧
      s'.profiles.any (fun q => q.user == u.id) = true ∧
      s'.preferences.any (fun q => q.user == u.id) = true ∧
      s'.analytics.any (fun q => q.user == u.id) = true ∧
      s'.business_infos.any (fun q => q.user == u.id) = true ∧
      s'.buyer_profiles.any (fun q => q.user == u.id) = true ∧
      s'.find_preferences u.id = some p ∧
      p.marketing_emails = (ud.getd "marketing_emails" (Value.bool true)).asBool ∧
      p.newsletter_subscription =
        (ud.getd "newsletter_subscription" (Value.bool true)).asBool := by
  unfold buyer_create_account_body at h
  cases h1 : create_base_user UserType.buyer ud s with
  | error e => simp only [h1] at h; exact Except.noConfusion h
  | ok us =>
    obtain ⟨u, s1⟩ := us
    simp only [h1] at h
    cases h2 : setup_base_profiles s1 u with
    | error e => simp only [h2] at h; exact Except.noConfusion h
    | ok pd =>
      simp only [h2] at h
      cases h3 : buyer_create_type_specific_profile u ud s1 with
      | error e => simp only [h3] at h; exact Except.noConfusion h
      | ok bs =>
        obtain ⟨bp, s2⟩ := bs
        simp only [h3] at h
        cases h4 : buyer_configure_type_specific_settings u ud s2 with
        | error e => simp only [h4] at h; exact Except.noConfusion h
        | ok ss =>
          obtain ⟨settings, s3⟩ := ss
          simp only [h4, Except.ok.injEq, Prod.mk.injEq] at h
          obtain ⟨hr, hs⟩ := h
          subst hs
          obtain ⟨b1, b2, b3, b4, b5, b6, b7, b8, b9, b10, b11⟩ :=
            create_base_user_ok _ _ _ _ _ h1
          obtain ⟨p1, p2, p3, p4, p5, p6, p7, p8, p9, p10⟩ :=
            buyer_profile_create_fields _ _ _ _ _ h3
          obtain ⟨t1, t2, t3, t4, t5, t6, t7, ⟨pp, tf, tm, tn⟩, ⟨bb, tb, ts⟩⟩ :=
            buyer_settings_fields _ _ _ _ _ h4
          refine ⟨u, pp, ?_, ?_, ?_, b1, b2, ?_, ?_, ?_, ?_, ?_, ?_, tf, tm, tn⟩
          · rw [← hr]
            rfl
          · rw [← hr]
            rfl
          · rw [← hr]
            rfl
          · rw [t1, p2, b3]
          · rw [t2, p3]
            exact b8
          · exact (any_iff_find?_isSome _ _).mpr
              (by unfold Store.find_preferences at tf; rw [tf]; rfl)
          · rw [t3, p5]
            exact b10
          · exact (any_iff_find?_isSome _ _).mpr
              (by unfold Store.find_business_info at tb; rw [tb]; rfl)
          · rw [t4]
            exact p10

/-- Everything a successful seller body run guarantees (mirror of the buyer
lemma; sellers default marketing and newsletter to off). -/
theorem seller_body_ok_spec (ud : UserData) (s : Store) (r : AccountCreationResult)
    (s' : Store) (h : seller_create_account_body ud s = Except.ok (r, s')) :
    ∃ (u : User) (p : UserPreferences),
      r.user = some u.id ∧ r.success = true ∧ r.errors = [] ∧
      u.id = s.next_id ∧ u.user_type = UserType.seller ∧
      s'.users = s.users ++ [u] ∧
      s'.profiles.any (fun q => q.user == u.id) = true ∧
      s'.preferences.any (fun q => q.user == u.id) = true ∧
      s'.analytics.any (fun q => q.user == u.id) = true ∧
      s'.business_infos.any (fun q => q.user == u.id) = true ∧
      s'.seller_profiles.any (fun q => q.user == u.id) = true ∧
      s'.find_preferences u.id = some p ∧
      p.marketing_emails = (ud.getd "marketing_emails" (Value.bool false)).asBool ∧
      p.newsletter_subscription =
        (ud.getd "newsletter_subscription" (Value.bool false)).asBool := by
  unfold seller_create_account_body at h
  cases h1 : create_base_user UserType.seller ud s with
  | error e => simp only [h1] at h; exact Except.noConfusion h
  | ok us =>
    obtain ⟨u, s1⟩ := us
    simp only [h1] at h
    cases h2 : setup_base_profiles s1 u with
    | error e => simp only [h2] at h; exact Except.noConfusion h
    | ok pd =>
      simp only [h2] at h
      cases h3 : seller_create_type_specific_profile u ud s1 with
      | error e => simp only [h3] at h; exact Except.noConfusion h
      | ok bs =>
        obtain ⟨sp, s2⟩ := bs
        simp only [h3] at h
        cases h4 : seller_configure_type_specific_settings u ud s2 with
        | error e => simp only [h4] at h; exact Except.noConfusion h
        | ok ss =>
          obtain ⟨settings, s3⟩ := ss
          simp only [h4, Except.ok.injEq, Prod.mk.injEq] at h
          obtain ⟨hr, hs⟩ := h
          subst hs
          obtain ⟨b1, b2, b3, b4, b5, b6, b7, b8, b9, b10, b11⟩ :=
            create_base_user_ok _ _ _ _ _ h1
          obtain ⟨p1, p2, p3, p4, p5, p6, p7, p8, p9, p10⟩ :=
            seller_profile_create_fields _ _ _ _ _ h3
          obtain ⟨t1, t2, t3, t4, t5, t6, t7, ⟨pp, tf, tm, tn⟩, ⟨bb, tb, ts⟩⟩ :=
            seller_settings_fields _ _ _ _ _ h4
          refine ⟨u, pp, ?_, ?_, ?_, b1, b2, ?_, ?_, ?_, ?_, ?_, ?_, tf, tm, tn⟩
          · rw [← hr]
            rfl
          · rw [← hr]
            rfl
          · rw [← hr]
            rfl
          · rw [t1, p2, b3]
          · rw [t2, p3]
            exact b8
          · exact (any_iff_find?_isSome _ _).mpr
              (by unfold Store.find_preferences at tf; rw [tf]; rfl)
          · rw [t3, p5]
            exact b10
          · exact (any_iff_find?_isSome _ _).mpr
              (by unfold Store.find_business_info at tb; rw [tb]; rfl)
          · rw [t5]
            exact p10

/-- Everything a successful admin body run guarantees.  The store must be
well-formed so that re-saving the flagged user only touches the new row. -/
theorem admin_body_ok_spec (ud : UserData) (s : Store) (r : AccountCreationResult)
    (s' : Store) (hwf : s.wf = true)
    (h : admin_create_account_body ud s = Except.ok (r, s')) :
    ∃ (u : User) (p : UserPreferences),
      r.user = some u.id ∧ r.success = true ∧ r.errors = [] ∧
      u.id = s.next_id ∧ u.user_type = UserType.admin ∧
      u.is_staff = true ∧
      u.is_superuser = (ud.getd "is_superuser" (Value.bool false)).asBool ∧
      s'.users = s.users ++ [u] ∧
      s'.profiles.any (fun q => q.user == u.id) = true ∧
      s'.preferences.any (fun q => q.user == u.id) = true ∧
      s'.analytics.any (fun q => q.user == u.id) = true ∧
      s'.business_infos.any (fun q => q.user == u.id) = true ∧
      s'.admin_profiles.any (fun q => q.user == u.id) = true ∧
      s'.find_preferences u.id = some p ∧
      p.marketing_emails = false ∧ p.newsletter_subscription = false := by
  unfold admin_create_account_body at h
  cases h1 : create_base_user UserType.admin ud s with
  | error e => simp only [h1] at h; exact Except.noConfusion h
  | ok us =>
    obtain ⟨u0, s1⟩ := us
    simp only [h1] at h
    cases h2 : setup_base_profiles (s1.save_user
        { u0 with is_staff := true,
                  is_superuser := (ud.getd "is_superuser" (Value.bool false)).asBool })
        { u0 with is_staff := true,
                  is_superuser := (ud.getd "is_superuser" (Value.bool false)).asBool } with
    | error e => simp only [h2] at h; exact Except.noConfusion h
    | ok pd =>
      simp only [h2] at h
      cases h3 : admin_create_type_specific_profile
          { u0 with is_staff := true,
                    is_superuser := (ud.getd "is_superuser" (Value.bool false)).asBool }
          ud
          (s1.save_user
            { u0 with is_staff := true,
                      is_superuser := (ud.getd "is_superuser" (Value.bool false)).asBool }) with
      | error e => simp only [h3] at h; exact Except.noConfusion h
      | ok bs =>
        obtain ⟨ap, s3⟩ := bs
        simp only [h3] at h
        cases h4 : admin_configure_type_specific_settings
            { u0 with is_staff := true,
                      is_superuser := (ud.getd "is_superuser" (Value.bool false)).asBool }
            ud s3 with
        | error e => simp only [h4] at h; exact Except.noConfusion h
        | ok ss =>
          obtain ⟨settings, s4⟩ := ss
          simp only [h4, Except.ok.injEq, Prod.mk.injEq] at h
          obtain ⟨hr, hs⟩ := h
          subst hs
          obtain ⟨b1, b2, b3, b4, b5, b6, b7, b8, b9, b10, b11⟩ :=
            create_base_user_ok _ _ _ _ _ h1
          obtain ⟨p1, p2, p3, p4, p5, p6, p7, p8, p9, p10⟩ :=
            admin_profile_create_fields _ _ _ _ _ h3
          obtain ⟨t1, t2, t3, t4, t5, t6, t7, ⟨pp, tf, tm, tn⟩, ⟨bb, tb, ts1, ts2⟩⟩ :=
            admin_settings_fields _ _ _ _ _ h4
          have hwf1 : ∀ v ∈ s.users, v.id < s.next_id := by
            intro v hv
            have := List.all_eq_true.mp hwf v hv
            simpa using this
          have hne : ∀ v ∈ s.users, v.id ≠ u0.id := by
            intro v hv
            rw [b1]
            exact Nat.ne_of_lt (hwf1 v hv)
          have husers : (s1.save_user
              { u0 with is_staff := true,
                        is_superuser := (ud.getd "is_superuser" (Value.bool false)).asBool }).users =
              s.users ++
                [{ u0 with is_staff := true,
                           is_superuser := (ud.getd "is_superuser" (Value.bool false)).asBool }] := by
            show s1.users.map _ = _
            rw [b3]
            exact save_users_append s.users u0 _ rfl (fun v hv => hne v hv)
          refine ⟨{ u0 with is_staff := true, is_superuser := (ud.getd "is_superuser" (Value.bool false)).asBool }, pp, ?_, ?_, ?_, ?_, ?_, rfl, rfl, ?_, ?_, ?_, ?_, ?_, ?_, tf, tm, tn⟩
          · rw [← hr]
            rfl
          · rw [← hr]
            rfl
          · rw [← hr]
            rfl
          · exact b1
          · exact b2
          · rw [t1, p2]
            exact husers
          · rw [t2, p3]
            exact b8
          · exact (any_iff_find?_isSome _ _).mpr
              (by unfold Store.find_preferences at tf; rw [tf]; rfl)
          · rw [t3, p5]
            exact b10
          · exact (any_iff_find?_isSome _ _).mpr
              (by unfold Store.find_business_info at tb; rw [tb]; rfl)
          · rw [t6]
            exact p10

/-- C9: the Base Profile Bundler is idempotent: invoking it a second time on
the same identity leaves the store unchanged (no duplicate companion rows are
created), and `_setup_base_profiles` returns the same four companion-profile
handles after either invocation. -/
theorem C9_bundler_idempotent (s : Store) (uid : Nat) :
    create_user_related_models (create_user_related_models s uid) uid =
      create_user_related_models s uid ∧
    ∀ u : User,
      setup_base_profiles (create_user_related_models (create_user_related_models s uid) uid) u =
        setup_base_profiles (create_user_related_models s uid) u := by
  obtain ⟨-, -, -, -, -, hp, hq, ha, hb⟩ := create_user_related_models_fields s uid
  have hid := create_user_related_models_of_any (create_user_related_models s uid) uid hp hq ha hb
  exact ⟨hid, fun u => by rw [hid]⟩

/-- C4: `get_factory` on a kind tag with no registered binding raises the
`ValueError` hard fault to its caller and never produces a factory; whenever
it does produce a factory, that factory is the one bound to exactly the
requested tag in the registry (lookup by exact tag equality, no fallback). -/
theorem C4_get_factory_unregistered (reg : Registry) (t : UserType) :
    (lookup_factory reg t = Option.none →
      get_factory reg t = Except.error "Unsupported user type") ∧
    (∀ f : Factory, get_factory reg t = Except.ok f →
      lookup_factory reg t = some f ∧ (t, f) ∈ reg) := by
  constructor
  · intro h
    unfold get_factory
    rw [h]
  · intro f hf
    unfold get_factory at hf
    cases hl : lookup_factory reg t with
    | none => rw [hl] at hf; exact Except.noConfusion hf
    | some g =>
      rw [hl] at hf
      have hg : g = f := Except.ok.inj hf
      rw [← hg]
      exact ⟨rfl, lookup_factory_mem reg t g hl⟩

/-- C4 witness: looking up an unregistered custom kind fails with the
`ValueError` fault. -/
theorem C4_witness :
    get_factory default_factories (UserType.custom "ghost") =
      Except.error "Unsupported user type" :=
  (C4_get_factory_unregistered default_factories (UserType.custom "ghost")).1 rfl

/-- C5: after `register_factory(k, F)`, `get_factory(k)` returns `F` even if
`k` had a prior binding (last write wins); the binding of every other kind is
unchanged; and `create_account` with the registered kind runs `F` directly,
so a newly registered kind works without modifying existing factories. -/
theorem C5_register_factory (reg : Registry) (k : UserType) (F : Factory) :
    get_factory (register_factory reg k F) k = Except.ok F ∧
    (∀ k' : UserType, k' ≠ k →
      get_factory (register_factory reg k F) k' = get_factory reg k') ∧
    (∀ (ud : UserData) (s : Store),
      create_account (register_factory reg k F) k ud s =
        Except.ok (F.create_account ud s)) := by
  have hg : get_factory (register_factory reg k F) k = Except.ok F := by
    unfold get_factory
    rw [lookup_register_self]
  refine ⟨hg, ?_, ?_⟩
  · intro k' hk
    unfold get_factory
    rw [lookup_register_other reg k k' F hk]
  · intro ud s
    unfold create_account
    rw [hg]
    rfl

/-- C5 witness: overwriting the BUYER binding with the admin factory takes
effect (last write wins), the SELLER binding is untouched, and
`create_account` with the re-registered kind runs the new factory. -/
theorem C5_witness :
    get_factory (register_factory default_factories UserType.buyer AdminAccountFactory)
        UserType.buyer = Except.ok AdminAccountFactory ∧
    get_factory (register_factory default_factories UserType.buyer AdminAccountFactory)
        UserType.seller = get_factory default_factories UserType.seller ∧
    create_account (register_factory default_factories UserType.buyer AdminAccountFactory)
        UserType.buyer [] Store.empty =
      Except.ok (AdminAccountFactory.create_account [] Store.empty) :=
  ⟨(C5_register_factory default_factories UserType.buyer AdminAccountFactory).1,
   (C5_register_factory default_factories UserType.buyer AdminAccountFactory).2.1
     UserType.seller (by decide),
   (C5_register_factory default_factories UserType.buyer AdminAccountFactory).2.2
     [] Store.empty⟩

/-- C1 counterexample: a result constructed with no user and no errors — as
`create_account`'s exception handlers do before calling `add_error` — has
`is_successful = true` even though no user was produced, so `is_successful`
does not hold iff (errors empty AND user non-null). -/
theorem C1_counterexample :
    (AccountCreationResult.init Option.none []).is_successful = true ∧
    (AccountCreationResult.init Option.none []).user = Option.none ∧
    (AccountCreationResult.init Option.none []).errors = [] :=
  ⟨rfl, rfl, rfl⟩

/-- C1 (amended): `is_successful` is the internal success flag AND the error
list being empty; the user reference is not consulted.  However, every result
returned by a built-in factory's `create_account` that carries no user has a
non-empty error list and is therefore not successful. -/
theorem C1_is_successful_spec :
    (∀ r : AccountCreationResult, r.is_successful = (r.success && r.errors.isEmpty)) ∧
    (∀ (ud : UserData) (s : Store),
      ((buyer_create_account ud s).1.user = Option.none →
        (buyer_create_account ud s).1.is_successful = false) ∧
      ((seller_create_account ud s).1.user = Option.none →
        (seller_create_account ud s).1.is_successful = false) ∧
      ((admin_create_account ud s).1.user = Option.none →
        (admin_create_account ud s).1.is_successful = false)) := by
  constructor
  · intro r; rfl
  · intro ud s
    refine ⟨?_, ?_, ?_⟩
    · intro hnone
      unfold buyer_create_account at hnone ⊢
      cases hb : buyer_create_account_body ud s with
      | error e => simp only [hb]; rfl
      | ok rs =>
        obtain ⟨r, s'⟩ := rs
        obtain ⟨uid, pd, hr⟩ := buyer_body_ok_user ud s r s' hb
        simp only [hb] at hnone
        rw [hr] at hnone
        exact Option.noConfusion hnone
    · intro hnone
      unfold seller_create_account at hnone ⊢
      cases hb : seller_create_account_body ud s with
      | error e => simp only [hb]; rfl
      | ok rs =>
        obtain ⟨r, s'⟩ := rs
        obtain ⟨uid, pd, hr⟩ := seller_body_ok_user ud s r s' hb
        simp only [hb] at hnone
        rw [hr] at hnone
        exact Option.noConfusion hnone
    · intro hnone
      unfold admin_create_account at hnone ⊢
      cases hb : admin_create_account_body ud s with
      | error e => simp only [hb]; rfl
      | ok rs =>
        obtain ⟨r, s'⟩ := rs
        obtain ⟨uid, pd, hr⟩ := admin_body_ok_user ud s r s' hb
        simp only [hb] at hnone
        rw [hr] at hnone
        exact Option.noConfusion hnone

/-- C1 witness: at a concrete failing input (empty field bag, empty store)
the buyer factory's result has no user and is indeed not successful. -/
theorem C1_witness :
    (AccountCreationResult.init (some 0) []).is_successful =
      ((AccountCreationResult.init (some 0) []).success &&
        (AccountCreationResult.init (some 0) []).errors.isEmpty) ∧
    (buyer_create_account [] Store.empty).1.is_successful = false :=
  ⟨C1_is_successful_spec.1 (AccountCreationResult.init (some 0) []),
   (C1_is_successful_spec.2 [] Store.empty).1 rfl⟩

/-- The SELLER concrete scenario input of spec §8. -/
def jane_data : UserData :=
  [("username", Value.str "jane"), ("email", Value.str "jane@x.com"),
   ("password", Value.str "p"), ("commission_rate", Value.num (9 / 2))]

/-- C6: creating a SELLER account from
`{username: "jane", email: "jane@x.com", password: "p", commissionRate: 4.5}`
succeeds; the business-status row ends `"pending"`; the preferences row ends
with `marketing_emails = false` (key not supplied by the caller); and the
result's sub-object mapping carries `verification_required = true`. -/
theorem C6_seller_scenario :
    (create_account default_factories UserType.seller jane_data Store.empty).toOption.map
      (fun p => (p.1.is_successful, p.1.user,
                 (p.2.find_business_info 0).map (fun b => b.account_status),
                 (p.2.find_preferences 0).map (fun q => q.marketing_emails),
                 p.1.profile_data.getv "verification_required")) =
      some (true, some 0, some "pending", some false, some (PValue.bool true)) := by
  rfl

/-- The ADMIN concrete scenario input of spec §8 (no `is_superuser` key). -/
def mike_data : UserData :=
  [("username", Value.str "mike"), ("email", Value.str "mike@x.com"),
   ("password", Value.str "p"), ("require_2fa", Value.bool true)]

/-- C7: creating an ADMIN account from
`{username: "mike", email: "mike@x.com", password: "p", require2FA: true}`
(no `is_superuser` key) succeeds; the persisted user has `is_staff = true`
and `is_superuser = false`; the business-status row ends `"active"` with
`is_premium = true`. -/
theorem C7_admin_scenario :
    (create_account default_factories UserType.admin mike_data Store.empty).toOption.map
      (fun p => (p.1.is_successful,
                 p.2.users.map (fun u => (u.username, u.is_staff, u.is_superuser)),
                 (p.2.find_business_info 0).map (fun b => (b.account_status, b.is_premium)))) =
      some (true, [("mike", true, false)], some ("active", true)) := by
  rfl

/-- C2: for each built-in kind, `create_account` on a well-formed store never
propagates an exception (it returns a result); on a non-successful result the
store is exactly the input store (full rollback, nothing persisted) and the
error list is non-empty; on a successful result exactly one identity record is
appended, tagged with the kind, with all four companion rows and the
kind-specific profile row present. -/
theorem C2_atomic_rollback :
    ∀ t ∈ [UserType.buyer, UserType.seller, UserType.admin],
    ∀ (ud : UserData) (s : Store), s.wf = true →
    ∃ r s', create_account default_factories t ud s = Except.ok (r, s') ∧
      (r.is_successful = false → s' = s ∧ r.errors ≠ []) ∧
      (r.is_successful = true →
        ∃ u : User, s'.users = s.users ++ [u] ∧ u.user_type = t ∧
          s'.profiles.any (fun q => q.user == u.id) = true ∧
          s'.preferences.any (fun q => q.user == u.id) = true ∧
          s'.analytics.any (fun q => q.user == u.id) = true ∧
          s'.business_infos.any (fun q => q.user == u.id) = true ∧
          (t = UserType.buyer → s'.buyer_profiles.any (fun q => q.user == u.id) = true) ∧
          (t = UserType.seller → s'.seller_profiles.any (fun q => q.user == u.id) = true) ∧
          (t = UserType.admin → s'.admin_profiles.any (fun q => q.user == u.id) = true)) := by
  intro t ht ud s hwf
  fin_cases ht
  · refine ⟨(buyer_create_account ud s).1, (buyer_create_account ud s).2, rfl, ?_, ?_⟩
    · intro hfail
      cases hb : buyer_create_account_body ud s with
      | error e =>
        have hw := buyer_create_account_of_body_error ud s e hb
        rw [hw]
        exact ⟨rfl, by simp [AccountCreationResult.add_error, AccountCreationResult.init]⟩
      | ok rs =>
        obtain ⟨r0, s0⟩ := rs
        have hw : buyer_create_account ud s = (r0, s0) := by
          unfold buyer_create_account
          rw [hb]
        obtain ⟨u, p, m1, m2, m3, m4, m5, m6, m7, m8, m9, m10, m11, m12, m13, m14⟩ :=
          buyer_body_ok_spec ud s r0 s0 hb
        rw [hw] at hfail
        simp [AccountCreationResult.is_successful, m2, m3] at hfail
    · intro hsucc
      cases hb : buyer_create_account_body ud s with
      | error e =>
        have hw := buyer_create_account_of_body_error ud s e hb
        rw [hw] at hsucc
        simp [AccountCreationResult.is_successful, AccountCreationResult.add_error,
          AccountCreationResult.init] at hsucc
      | ok rs =>
        obtain ⟨r0, s0⟩ := rs
        have hw : buyer_create_account ud s = (r0, s0) := by
          unfold buyer_create_account
          rw [hb]
        obtain ⟨u, p, m1, m2, m3, m4, m5, m6, m7, m8, m9, m10, m11, m12, m13, m14⟩ :=
          buyer_body_ok_spec ud s r0 s0 hb
        rw [hw]
        exact ⟨u, m6, m5, m7, m8, m9, m10, fun _ => m11,
          fun hh => absurd hh (by decide), fun hh => absurd hh (by decide)⟩
  · refine ⟨(seller_create_account ud s).1, (seller_create_account ud s).2, rfl, ?_, ?_⟩
    · intro hfail
      cases hb : seller_create_account_body ud s with
      | error e =>
        have hw := seller_create_account_of_body_error ud s e hb
        rw [hw]
        exact ⟨rfl, by simp [AccountCreationResult.add_error, AccountCreationResult.init]⟩
      | ok rs =>
        obtain ⟨r0, s0⟩ := rs
        have hw : seller_create_account ud s = (r0, s0) := by
          unfold seller_create_account
          rw [hb]
        obtain ⟨u, p, m1, m2, m3, m4, m5, m6, m7, m8, m9, m10, m11, m12, m13, m14⟩ :=
          seller_body_ok_spec ud s r0 s0 hb
        rw [hw] at hfail
        simp [AccountCreationResult.is_successful, m2, m3] at hfail
    · intro hsucc
      cases hb : seller_create_account_body ud s with
      | error e =>
        have hw := seller_create_account_of_body_error ud s e hb
        rw [hw] at hsucc
        simp [AccountCreationResult.is_successful, AccountCreationResult.add_error,
          AccountCreationResult.init] at hsucc
      | ok rs =>
        obtain ⟨r0, s0⟩ := rs
        have hw : seller_create_account ud s = (r0, s0) := by
          unfold seller_create_account
          rw [hb]
        obtain ⟨u, p, m1, m2, m3, m4, m5, m6, m7, m8, m9, m10, m11, m12, m13, m14⟩ :=
          seller_body_ok_spec ud s r0 s0 hb
        rw [hw]
        exact ⟨u, m6, m5, m7, m8, m9, m10, fun hh => absurd hh (by decide),
          fun _ => m11, fun hh => absurd hh (by decide)⟩
  · refine ⟨(admin_create_account ud s).1, (admin_create_account ud s).2, rfl, ?_, ?_⟩
    · intro hfail
      cases hb : admin_create_account_body ud s with
      | error e =>
        have hw := admin_create_account_of_body_error ud s e hb
        rw [hw]
        exact ⟨rfl, by simp [AccountCreationResult.add_error, AccountCreationResult.init]⟩
      | ok rs =>
        obtain ⟨r0, s0⟩ := rs
        have hw : admin_create_account ud s = (r0, s0) := by
          unfold admin_create_account
          rw [hb]
        obtain ⟨u, p, m1, m2, m3, m4, m5, m6, m7, m8, m9, m10, m11, m12, m13, m14, m15, m16⟩ :=
          admin_body_ok_spec ud s r0 s0 hwf hb
        rw [hw] at hfail
        simp [AccountCreationResult.is_successful, m2, m3] at hfail
    · intro hsucc
      cases hb : admin_create_account_body ud s with
      | error e =>
        have hw := admin_create_account_of_body_error ud s e hb
        rw [hw] at hsucc
        simp [AccountCreationResult.is_successful, AccountCreationResult.add_error,
          AccountCreationResult.init] at hsucc
      | ok rs =>
        obtain ⟨r0, s0⟩ := rs
        have hw : admin_create_account ud s = (r0, s0) := by
          unfold admin_create_account
          rw [hb]
        obtain ⟨u, p, m1, m2, m3, m4, m5, m6, m7, m8, m9, m10, m11, m12, m13, m14, m15, m16⟩ :=
          admin_body_ok_spec ud s r0 s0 hwf hb
        rw [hw]
        exact ⟨u, m8, m5, m9, m10, m11, m12, fun hh => absurd hh (by decide),
          fun hh => absurd hh (by decide), fun _ => m13⟩

/-- C2 witness: at a concrete valid input the buyer call applies the theorem
with the well-formedness hypothesis discharged on the empty store. -/
theorem C2_witness :
    ∃ r s', create_account default_factories UserType.buyer
        [("username", Value.str "w"), ("email", Value.str "w@x.com"),
         ("password", Value.str "p")] Store.empty = Except.ok (r, s') ∧
      (r.is_successful = false → s' = Store.empty ∧ r.errors ≠ []) ∧
      (r.is_successful = true →
        ∃ u : User, s'.users = Store.empty.users ++ [u] ∧
          u.user_type = UserType.buyer ∧
          s'.profiles.any (fun q => q.user == u.id) = true ∧
          s'.preferences.any (fun q => q.user == u.id) = true ∧
          s'.analytics.any (fun q => q.user == u.id) = true ∧
          s'.business_infos.any (fun q => q.user == u.id) = true ∧
          (UserType.buyer = UserType.buyer →
            s'.buyer_profiles.any (fun q => q.user == u.id) = true) ∧
          (UserType.buyer = UserType.seller →
            s'.seller_profiles.any (fun q => q.user == u.id) = true) ∧
          (UserType.buyer = UserType.admin →
            s'.admin_profiles.any (fun q => q.user == u.id) = true)) :=
  C2_atomic_rollback UserType.buyer (by decide)
    [("username", Value.str "w"), ("email", Value.str "w@x.com"),
     ("password", Value.str "p")] Store.empty (by decide)

/-- C3: for each built-in kind, a field bag in which username, email or
password is absent or empty yields a returned (not thrown) result that is not
successful, holds no user, carries at least one error, and leaves the store
untouched (no identity record persisted). -/
theorem C3_missing_required :
    ∀ t ∈ [UserType.buyer, UserType.seller, UserType.admin],
    ∀ (ud : UserData) (s : Store),
    ((ud.get "username" = Value.none ∨ ud.get "username" = Value.str "") ∨
     (ud.get "email" = Value.none ∨ ud.get "email" = Value.str "") ∨
     (ud.get "password" = Value.none ∨ ud.get "password" = Value.str "")) →
    ∃ r, create_account default_factories t ud s = Except.ok (r, s) ∧
      r.is_successful = false ∧ r.user = Option.none ∧ r.errors ≠ [] := by
  intro t ht ud s hmiss
  have hguard : ((ud.get "username").truthy && (ud.get "email").truthy &&
      (ud.get "password").truthy) = false := by
    have hstr : ("" : String).isEmpty = true := rfl
    rcases hmiss with (h | h) | (h | h) | (h | h) <;> simp [h, Value.truthy, hstr]
  fin_cases ht
  · have hbase := create_base_user_missing UserType.buyer ud s hguard
    have hbody := buyer_body_error_of_base ud s _ hbase
    have hw := buyer_create_account_of_body_error ud s _ hbody
    exact ⟨(AccountCreationResult.init Option.none []).add_error
        ("Failed to create buyer account: " ++
          "Username, email, and password are required"),
      by rw [show create_account default_factories UserType.buyer ud s =
        Except.ok (buyer_create_account ud s) from rfl, hw], rfl, rfl,
      by simp [AccountCreationResult.add_error, AccountCreationResult.init]⟩
  · have hbase := create_base_user_missing UserType.seller ud s hguard
    have hbody := seller_body_error_of_base ud s _ hbase
    have hw := seller_create_account_of_body_error ud s _ hbody
    exact ⟨(AccountCreationResult.init Option.none []).add_error
        ("Failed to create seller account: " ++
          "Username, email, and password are required"),
      by rw [show create_account default_factories UserType.seller ud s =
        Except.ok (seller_create_account ud s) from rfl, hw], rfl, rfl,
      by simp [AccountCreationResult.add_error, AccountCreationResult.init]⟩
  · have hbase := create_base_user_missing UserType.admin ud s hguard
    have hbody := admin_body_error_of_base ud s _ hbase
    have hw := admin_create_account_of_body_error ud s _ hbody
    exact ⟨(AccountCreationResult.init Option.none []).add_error
        ("Failed to create admin account: " ++
          "Username, email, and password are required"),
      by rw [show create_account default_factories UserType.admin ud s =
        Except.ok (admin_create_account ud s) from rfl, hw], rfl, rfl,
      by simp [AccountCreationResult.add_error, AccountCreationResult.init]⟩

/-- C3 witness: an empty password with the buyer kind on the empty store. -/
theorem C3_witness :
    ∃ r, create_account default_factories UserType.buyer
        [("username", Value.str "john"), ("email", Value.str "j@x.com"),
         ("password", Value.str "")] Store.empty =
      Except.ok (r, Store.empty) ∧
      r.is_successful = false ∧ r.user = Option.none ∧ r.errors ≠ [] :=
  C3_missing_required UserType.buyer (by decide)
    [("username", Value.str "john"), ("email", Value.str "j@x.com"),
     ("password", Value.str "")] Store.empty (Or.inr (Or.inr (Or.inr rfl)))

/-- C8: for each built-in kind, a `create_account` call whose (non-empty)
email already belongs to a persisted user returns — it does not throw — a
result with `is_successful = false`, no user and a non-empty error list (the
uniqueness violation surfaced as an error string), and leaves the store
unchanged: no identity record is persisted by the second call. -/
theorem C8_duplicate_email :
    ∀ t ∈ [UserType.buyer, UserType.seller, UserType.admin],
    ∀ (ud : UserData) (s : Store) (e : String),
    ud.get "email" = Value.str e → e ≠ "" →
    (ud.get "username").truthy = true →
    (ud.get "password").truthy = true →
    (∃ v ∈ s.users, v.email = e) →
    ∃ r, create_account default_factories t ud s = Except.ok (r, s) ∧
      r.is_successful = false ∧ r.user = Option.none ∧ r.errors ≠ [] := by
  intro t ht ud s e hemail he hun hpw hdup
  have htr : ((ud.get "username").truthy && (ud.get "email").truthy &&
      (ud.get "password").truthy) = true := by
    rw [hun, hpw, hemail]
    have h1 : (Value.str e).truthy = true := by
      have h2 : e.isEmpty = false := by
        rw [show (e.isEmpty = false) = (e.isEmpty ≠ true) by simp]
        intro hc
        exact he ((String.isEmpty_iff e).mp hc)
      simp [Value.truthy, h2]
    rw [h1]
    rfl
  have hany : s.users.any (fun v => v.email == e) = true :=
    List.any_eq_true.mpr
      (by obtain ⟨v, hv, hve⟩ := hdup; exact ⟨v, hv, by simp [hve]⟩)
  fin_cases ht
  · have hbase := create_base_user_dup_email UserType.buyer ud s e hemail htr hany
    have hbody := buyer_body_error_of_base ud s _ hbase
    have hw := buyer_create_account_of_body_error ud s _ hbody
    exact ⟨(AccountCreationResult.init Option.none []).add_error
        ("Failed to create buyer account: " ++
          "UNIQUE constraint failed: users_user.email"),
      by rw [show create_account default_factories UserType.buyer ud s =
        Except.ok (buyer_create_account ud s) from rfl, hw], rfl, rfl,
      by simp [AccountCreationResult.add_error, AccountCreationResult.init]⟩
  · have hbase := create_base_user_dup_email UserType.seller ud s e hemail htr hany
    have hbody := seller_body_error_of_base ud s _ hbase
    have hw := seller_create_account_of_body_error ud s _ hbody
    exact ⟨(AccountCreationResult.init Option.none []).add_error
        ("Failed to create seller account: " ++
          "UNIQUE constraint failed: users_user.email"),
      by rw [show create_account default_factories UserType.seller ud s =
        Except.ok (seller_create_account ud s) from rfl, hw], rfl, rfl,
      by simp [AccountCreationResult.add_error, AccountCreationResult.init]⟩
  · have hbase := create_base_user_dup_email UserType.admin ud s e hemail htr hany
    have hbody := admin_body_error_of_base ud s _ hbase
    have hw := admin_create_account_of_body_error ud s _ hbody
    exact ⟨(AccountCreationResult.init Option.none []).add_error
        ("Failed to create admin account: " ++
          "UNIQUE constraint failed: users_user.email"),
      by rw [show create_account default_factories UserType.admin ud s =
        Except.ok (admin_create_account ud s) from rfl, hw], rfl, rfl,
      by simp [AccountCreationResult.add_error, AccountCreationResult.init]⟩

/-- The first call of the C8 duplicate-email scenario: BUYER with the email. -/
def c8_first_data : UserData :=
  [("username", Value.str "john"), ("email", Value.str "dup@x.com"),
   ("password", Value.str "p")]

/-- The store after the first (buyer) call of the C8 scenario. -/
def c8_store_after_first : Store :=
  (buyer_create_account c8_first_data Store.empty).2

/-- The second call's field bag (different username, same email). -/
def c8_second_data : UserData :=
  [("username", Value.str "jane"), ("email", Value.str "dup@x.com"),
   ("password", Value.str "p")]

/-- The identity record the first C8 call persists. -/
def c8_john : User :=
  { id := 0, username := "john", email := "dup@x.com", password := "p",
    user_type := UserType.buyer, first_name := "", last_name := "",
    is_staff := false, is_superuser := false, is_email_verified := false }

/-- C8 witness: the first buyer call succeeds; the second call (SELLER, same
email) is resolved by the theorem at this concrete store. -/
theorem C8_witness :
    (buyer_create_account c8_first_data Store.empty).1.is_successful = true ∧
    ∃ r, create_account default_factories UserType.seller c8_second_data
        c8_store_after_first = Except.ok (r, c8_store_after_first) ∧
      r.is_successful = false ∧ r.user = Option.none ∧ r.errors ≠ [] :=
  ⟨rfl,
   C8_duplicate_email UserType.seller (by decide) c8_second_data
     c8_store_after_first "dup@x.com" rfl (by decide) rfl rfl
     ⟨c8_john, by decide, rfl⟩⟩

/-- C10: a successful ADMIN creation forces `marketing_emails = false` and
`newsletter_subscription = false` on the preferences row no matter what the
field bag contains (the keys are ignored), whereas for BUYER and SELLER a
caller-supplied boolean for those keys is written to the row as given. -/
theorem C10_marketing_inputs (ud : UserData) (s : Store)
    (r : AccountCreationResult) (s' : Store) (uid : Nat) :
    (s.wf = true → admin_create_account ud s = (r, s') →
      r.is_successful = true → r.user = some uid →
      ∃ p, s'.find_preferences uid = some p ∧
        p.marketing_emails = false ∧ p.newsletter_subscription = false) ∧
    (∀ bm bn : Bool, ud.get "marketing_emails" = Value.bool bm →
      ud.get "newsletter_subscription" = Value.bool bn →
      buyer_create_account ud s = (r, s') →
      r.is_successful = true → r.user = some uid →
      ∃ p, s'.find_preferences uid = some p ∧
        p.marketing_emails = bm ∧ p.newsletter_subscription = bn) ∧
    (∀ bm bn : Bool, ud.get "marketing_emails" = Value.bool bm →
      ud.get "newsletter_subscription" = Value.bool bn →
      seller_create_account ud s = (r, s') →
      r.is_successful = true → r.user = some uid →
      ∃ p, s'.find_preferences uid = some p ∧
        p.marketing_emails = bm ∧ p.newsletter_subscription = bn) := by
  refine ⟨?_, ?_, ?_⟩
  · intro hwf hw hsucc huser
    cases hb : admin_create_account_body ud s with
    | error e =>
      have hx := admin_create_account_of_body_error ud s e hb
      rw [hx] at hw
      injection hw with h1 h2
      rw [← h1] at hsucc
      simp [AccountCreationResult.is_successful, AccountCreationResult.add_error,
        AccountCreationResult.init] at hsucc
    | ok rs =>
      obtain ⟨r0, s0⟩ := rs
      have hx : admin_create_account ud s = (r0, s0) := by
        unfold admin_create_account
        rw [hb]
      rw [hx] at hw
      injection hw with h1 h2
      subst h1
      subst h2
      obtain ⟨u, p, m1, m2, m3, m4, m5, m6, m7, m8, m9, m10, m11, m12, m13, m14, m15, m16⟩ :=
        admin_body_ok_spec ud s r0 s0 hwf hb
      rw [m1] at huser
      obtain rfl := Option.some.inj huser
      exact ⟨p, m14, m15, m16⟩
  · intro bm bn hm hn hw hsucc huser
    cases hb : buyer_create_account_body ud s with
    | error e =>
      have hx := buyer_create_account_of_body_error ud s e hb
      rw [hx] at hw
      injection hw with h1 h2
      rw [← h1] at hsucc
      simp [AccountCreationResult.is_successful, AccountCreationResult.add_error,
        AccountCreationResult.init] at hsucc
    | ok rs =>
      obtain ⟨r0, s0⟩ := rs
      have hx : buyer_create_account ud s = (r0, s0) := by
        unfold buyer_create_account
        rw [hb]
      rw [hx] at hw
      injection hw with h1 h2
      subst h1
      subst h2
      obtain ⟨u, p, m1, m2, m3, m4, m5, m6, m7, m8, m9, m10, m11, m12, m13, m14⟩ :=
        buyer_body_ok_spec ud s r0 s0 hb
      rw [m1] at huser
      obtain rfl := Option.some.inj huser
      rw [getd_of_get ud "marketing_emails" (Value.bool bm) (Value.bool true) hm
        (by simp)] at m13
      rw [getd_of_get ud "newsletter_subscription" (Value.bool bn) (Value.bool true) hn
        (by simp)] at m14
      exact ⟨p, m12, m13, m14⟩
  · intro bm bn hm hn hw hsucc huser
    cases hb : seller_create_account_body ud s with
    | error e =>
      have hx := seller_create_account_of_body_error ud s e hb
      rw [hx] at hw
      injection hw with h1 h2
      rw [← h1] at hsucc
      simp [AccountCreationResult.is_successful, AccountCreationResult.add_error,
        AccountCreationResult.init] at hsucc
    | ok rs =>
      obtain ⟨r0, s0⟩ := rs
      have hx : seller_create_account ud s = (r0, s0) := by
        unfold seller_create_account
        rw [hb]
      rw [hx] at hw
      injection hw with h1 h2
      subst h1
      subst h2
      obtain ⟨u, p, m1, m2, m3, m4, m5, m6, m7, m8, m9, m10, m11, m12, m13, m14⟩ :=
        seller_body_ok_spec ud s r0 s0 hb
      rw [m1] at huser
      obtain rfl := Option.some.inj huser
      rw [getd_of_get ud "marketing_emails" (Value.bool bm) (Value.bool false) hm
        (by simp)] at m13
      rw [getd_of_get ud "newsletter_subscription" (Value.bool bn) (Value.bool false) hn
        (by simp)] at m14
      exact ⟨p, m12, m13, m14⟩

/-- An ADMIN bag that supplies `true` for both marketing keys (the factory
must ignore them). -/
def c10_admin_data : UserData :=
  [("username", Value.str "root"), ("email", Value.str "root@x.com"),
   ("password", Value.str "p"), ("marketing_emails", Value.bool true),
   ("newsletter_subscription", Value.bool true)]

/-- The ADMIN run of the C10 witness. -/
def c10_admin_run : AccountCreationResult × Store :=
  admin_create_account c10_admin_data Store.empty

/-- A SELLER bag that supplies `true` for both marketing keys (the factory
must honour them; the seller defaults are `false`). -/
def c10_seller_data : UserData :=
  [("username", Value.str "kate"), ("email", Value.str "kate@x.com"),
   ("password", Value.str "p"), ("marketing_emails", Value.bool true),
   ("newsletter_subscription", Value.bool true)]

/-- The SELLER run of the C10 witness. -/
def c10_seller_run : AccountCreationResult × Store :=
  seller_create_account c10_seller_data Store.empty

/-- C10 witness: with `true` supplied for both keys, the admin run ends with
both preference flags `false` while the seller run ends with both `true`. -/
theorem C10_witness :
    (∃ p, (c10_admin_run.2).find_preferences 0 = some p ∧
      p.marketing_emails = false ∧ p.newsletter_subscription = false) ∧
    (∃ p, (c10_seller_run.2).find_preferences 0 = some p ∧
      p.marketing_emails = true ∧ p.newsletter_subscription = true) :=
  ⟨(C10_marketing_inputs c10_admin_data Store.empty c10_admin_run.1
      c10_admin_run.2 0).1 rfl rfl rfl rfl,
   (C10_marketing_inputs c10_seller_data Store.empty c10_seller_run.1
      c10_seller_run.2 0).2.2 true true rfl rfl rfl rfl rfl⟩

end MarketPlace
